import Mathlib

/-!
Verification of the Tegra210 XUSB pad-controller driver
(drivers/phy/tegra/xusb-tegra210.c) against its natural-language
specification.  The driver's register-level operations are shallowly
embedded: registers are a map from byte offset to 32-bit value, every
`padctl_writel` is recorded in an event trace, and the bounded polls of
the UPHY PLL calibration sequence are driven by an oracle of booleans
(one per poll: did the status bit reach the desired value before the
100 ms deadline).
-/

namespace Tegra210

/- ── Register offsets and bit constants, transcribed from the driver macros ── -/

def XUSB_PADCTL_SS_PORT_MAP : Nat := 0x014
def SS_PORT_MAP_PORTX_INTERNAL (x : Nat) : Nat := 1 <<< (x * 5 + 4)
def SS_PORT_MAP_PORTX_MAP_MASK (x : Nat) : Nat := 0x7 <<< (x * 5)
def SS_PORT_MAP_PORTX_MAP (x v : Nat) : Nat := (v &&& 0x7) <<< (x * 5)

def XUSB_PADCTL_ELPG_PROGRAM_1 : Nat := 0x024
def SSPX_ELPG_CLAMP_EN (x : Nat) : Nat := 1 <<< (0 + x * 3)
def SSPX_ELPG_CLAMP_EN_EARLY (x : Nat) : Nat := 1 <<< (1 + x * 3)
def SSPX_ELPG_VCORE_DOWN (x : Nat) : Nat := 1 <<< (2 + x * 3)
def AUX_MUX_LP0_CLAMP_EN : Nat := 1 <<< 29
def AUX_MUX_LP0_CLAMP_EN_EARLY : Nat := 1 <<< 30
def AUX_MUX_LP0_VCORE_DOWN : Nat := 1 <<< 31

def XUSB_PADCTL_UPHY_PLL_P0_CTL1 : Nat := 0x360
def UPHY_PLL_CTL1_FREQ_NDIV_SHIFT : Nat := 20
def UPHY_PLL_CTL1_FREQ_NDIV_MASK : Nat := 0xff
def UPHY_PLL_CTL1_FREQ_NDIV_USB_VAL : Nat := 0x19
def UPHY_PLL_CTL1_FREQ_NDIV_SATA_VAL : Nat := 0x1e
def UPHY_PLL_CTL1_FREQ_MDIV_SHIFT : Nat := 16
def UPHY_PLL_CTL1_FREQ_MDIV_MASK : Nat := 0x3
def UPHY_PLL_CTL1_LOCKDET_STATUS : Nat := 1 <<< 15
def UPHY_PLL_CTL1_PWR_OVRD : Nat := 1 <<< 4
def UPHY_PLL_CTL1_ENABLE : Nat := 1 <<< 3
def UPHY_PLL_CTL1_SLEEP_SHIFT : Nat := 1
def UPHY_PLL_CTL1_SLEEP_MASK : Nat := 0x3
def UPHY_PLL_CTL1_IDDQ : Nat := 1 <<< 0

def XUSB_PADCTL_UPHY_PLL_P0_CTL2 : Nat := 0x364
def UPHY_PLL_CTL2_CAL_CTRL_SHIFT : Nat := 4
def UPHY_PLL_CTL2_CAL_CTRL_MASK : Nat := 0xffffff
def UPHY_PLL_CTL2_CAL_CTRL_VAL : Nat := 0x136
def UPHY_PLL_CTL2_CAL_OVRD : Nat := 1 <<< 2
def UPHY_PLL_CTL2_CAL_DONE : Nat := 1 <<< 1
def UPHY_PLL_CTL2_CAL_EN : Nat := 1 <<< 0

def XUSB_PADCTL_UPHY_PLL_P0_CTL4 : Nat := 0x36c
def UPHY_PLL_CTL4_TXCLKREF_EN : Nat := 1 <<< 15
def UPHY_PLL_CTL4_TXCLKREF_SEL_SHIFT : Nat := 12
def UPHY_PLL_CTL4_TXCLKREF_SEL_MASK : Nat := 0x3
def UPHY_PLL_CTL4_TXCLKREF_SEL_USB_VAL : Nat := 0x2
def UPHY_PLL_CTL4_TXCLKREF_SEL_SATA_VAL : Nat := 0x0
def UPHY_PLL_CTL4_REFCLKBUF_EN : Nat := 1 <<< 8
def UPHY_PLL_CTL4_REFCLK_SEL_SHIFT : Nat := 4
def UPHY_PLL_CTL4_REFCLK_SEL_MASK : Nat := 0xf

def XUSB_PADCTL_UPHY_PLL_P0_CTL5 : Nat := 0x370
def UPHY_PLL_CTL5_DCO_CTRL_SHIFT : Nat := 16
def UPHY_PLL_CTL5_DCO_CTRL_MASK : Nat := 0xff
def UPHY_PLL_CTL5_DCO_CTRL_VAL : Nat := 0x2a

def XUSB_PADCTL_UPHY_PLL_P0_CTL8 : Nat := 0x37c
def UPHY_PLL_CTL8_RCAL_DONE : Nat := 1 <<< 31
def UPHY_PLL_CTL8_RCAL_OVRD : Nat := 1 <<< 15
def UPHY_PLL_CTL8_RCAL_CLK_EN : Nat := 1 <<< 13
def UPHY_PLL_CTL8_RCAL_EN : Nat := 1 <<< 12

def XUSB_PADCTL_UPHY_PLL_S0_CTL1 : Nat := 0x860
def XUSB_PADCTL_UPHY_PLL_S0_CTL2 : Nat := 0x864
def XUSB_PADCTL_UPHY_PLL_S0_CTL4 : Nat := 0x86c
def XUSB_PADCTL_UPHY_PLL_S0_CTL5 : Nat := 0x870
def XUSB_PADCTL_UPHY_PLL_S0_CTL8 : Nat := 0x87c
def XUSB_PADCTL_UPHY_PLL_S0_CTL10 : Nat := 0x384

def CFG_ADDR (x : Nat) : Nat := (x &&& 0xff) <<< 16
def CFG_WDATA (x : Nat) : Nat := (x &&& 0xffff) <<< 0
def CFG_RESET : Nat := 1 <<< 27
def CFG_WS : Nat := 1 <<< 24

def XUSB_PADCTL_UPHY_USB3_PADX_ECTL1 (x : Nat) : Nat := 0xa60 + x * 0x40
def UPHY_USB3_PAD_ECTL1_TX_TERM_CTRL_SHIFT : Nat := 16
def UPHY_USB3_PAD_ECTL1_TX_TERM_CTRL_MASK : Nat := 0x3
def UPHY_USB3_PAD_ECTL1_TX_TERM_CTRL_VAL : Nat := 0x2
def XUSB_PADCTL_UPHY_USB3_PADX_ECTL2 (x : Nat) : Nat := 0xa64 + x * 0x40
def UPHY_USB3_PAD_ECTL2_RX_CTLE_SHIFT : Nat := 0
def UPHY_USB3_PAD_ECTL2_RX_CTLE_MASK : Nat := 0xffff
def UPHY_USB3_PAD_ECTL2_RX_CTLE_VAL : Nat := 0x00fc
def XUSB_PADCTL_UPHY_USB3_PADX_ECTL3 (x : Nat) : Nat := 0xa68 + x * 0x40
def UPHY_USB3_PAD_ECTL3_RX_DFE_VAL : Nat := 0xc0077f1f
def XUSB_PADCTL_UPHY_USB3_PADX_ECTL4 (x : Nat) : Nat := 0xa6c + x * 0x40
def UPHY_USB3_PAD_ECTL4_RX_CDR_CTRL_SHIFT : Nat := 16
def UPHY_USB3_PAD_ECTL4_RX_CDR_CTRL_MASK : Nat := 0xffff
def UPHY_USB3_PAD_ECTL4_RX_CDR_CTRL_VAL : Nat := 0x01c7
def XUSB_PADCTL_UPHY_USB3_PADX_ECTL6 (x : Nat) : Nat := 0xa74 + x * 0x40
def UPHY_USB3_PAD_ECTL6_RX_EQ_CTRL_H_VAL : Nat := 0xfcf01368

def XUSB_PADCTL_USB2_VBUS_ID : Nat := 0xc60
def VBUS_OVERRIDE_VBUS_ON : Nat := 1 <<< 14
def ID_OVERRIDE (x : Nat) : Nat := (x &&& 0xf) <<< 18
def ID_OVERRIDE_GROUNDED : Nat := ID_OVERRIDE 0
def ID_OVERRIDE_FLOATING : Nat := ID_OVERRIDE 8

/-- 32-bit complement: the C driver's `~mask` applied to a `u32`. -/
def not32 (m : Nat) : Nat := 0xFFFFFFFF ^^^ m

/- ── Model of the memory-mapped register block with an event trace ── -/

/-- One observable action of the driver.  `write` is a `padctl_writel`;
`sleepRange` an `usleep_range`; `timeout` is a poll loop that exhausted
its 100 ms bound (the driver sets `err = -ETIMEDOUT` and logs); `warn` a
`WARN_ON` that fired; the `hw*` events are the calls into the PMC
(`tegra210_*_pll_hw_control_enable` / `hw_sequence_start`). -/
inductive Event where
  | write (off val : Nat)
  | sleepRange (lo hi : Nat)
  | timeout
  | warn
  | hwCtrlPex
  | hwSeqStartPex
  | hwCtrlSata
  | hwSeqStartSata
  | hwSeqStartPlle
  deriving DecidableEq, BEq

/-- The register block plus the trace of actions performed so far. -/
structure Hw where
  regs : Nat → Nat
  trace : List Event

/-- `padctl_readl`: hardware registers are 32 bits wide. -/
def rd (s : Hw) (off : Nat) : Nat := s.regs off &&& 0xFFFFFFFF

def wrRegs (f : Nat → Nat) (off v : Nat) : Nat → Nat :=
  fun o => if o = off then v else f o

/-- `padctl_writel`: store the value and record the write. -/
def wr (s : Hw) (off v : Nat) : Hw :=
  { regs := wrRegs s.regs off v, trace := s.trace ++ [Event.write off v] }

/-- `usleep_range(lo, hi)`. -/
def sleepR (s : Hw) (lo hi : Nat) : Hw :=
  { s with trace := s.trace ++ [Event.sleepRange lo hi] }

def emit (s : Hw) (e : Event) : Hw :=
  { s with trace := s.trace ++ [e] }

/-- Byte offsets of the `padctl_writel` calls in a trace. -/
def writeOffsets (t : List Event) : List Nat :=
  t.filterMap fun e =>
    match e with
    | .write o _ => some o
    | _ => none

/- ── OTG VBUS / ID arbiter (§4.5) ── -/

/-- State touched by `tegra210_xusb_padctl_vbus_override`,
`tegra210_xusb_padctl_id_override` and the deferred work handler
`tegra210_xusb_padctl_otg_vbus_handle`: the XUSB_PADCTL_USB2_VBUS_ID
register, the driver's `otg_vbus_on` flag, and the external bus-power
regulator (`tegra210_xusb_padctl_vbus_power_on/off` target). -/
structure OtgState where
  reg : Nat
  otgVbusOn : Bool
  regulatorOn : Bool
  deriving DecidableEq

/-- Register transform of `tegra210_xusb_padctl_vbus_override`: on `set`,
OR in VBUS_ON, clear the ID-override field and force it to FLOATING; on
clear, only drop VBUS_ON. -/
def vbusOverrideReg (set : Bool) (reg : Nat) : Nat :=
  if set then
    ((reg ||| VBUS_OVERRIDE_VBUS_ON) &&& not32 (ID_OVERRIDE 0xf)) |||
      ID_OVERRIDE_FLOATING
  else
    reg &&& not32 VBUS_OVERRIDE_VBUS_ON

/-- Register transform of `tegra210_xusb_padctl_id_override` (the
intermediate VBUS_ON-clearing write on the set path is folded into the
final value, as the driver re-reads the register it just wrote). -/
def idOverrideReg (set : Bool) (reg : Nat) : Nat :=
  if set then
    let reg1 := if reg &&& VBUS_OVERRIDE_VBUS_ON ≠ 0 then
                  reg &&& not32 VBUS_OVERRIDE_VBUS_ON
                else reg
    (reg1 &&& not32 (ID_OVERRIDE 0xf)) ||| ID_OVERRIDE_GROUNDED
  else
    (reg &&& not32 (ID_OVERRIDE 0xf)) ||| ID_OVERRIDE_FLOATING

/-- `tegra210_xusb_padctl_otg_vbus_handle`: reads USB2_VBUS_ID; if the
ID-override field reads GROUNDED it powers the regulator on (when
`otg_vbus_on` is still false); if it reads FLOATING it powers it off
(when `otg_vbus_on` is true); regulator calls are modelled as
succeeding. -/
def otgVbusHandle (s : OtgState) : OtgState :=
  if s.reg &&& ID_OVERRIDE 0xf = ID_OVERRIDE_GROUNDED then
    if !s.otgVbusOn then { s with regulatorOn := true, otgVbusOn := true }
    else s
  else if s.reg &&& ID_OVERRIDE 0xf = ID_OVERRIDE_FLOATING then
    if s.otgVbusOn then { s with regulatorOn := false, otgVbusOn := false }
    else s
  else s

/-- The three entry points the OTG arbiter is driven by: the two
override setters (each of which schedules the deferred work) and a run
of the scheduled work handler itself. -/
inductive OtgAct where
  | vbus (set : Bool)
  | id (set : Bool)
  | handle
  deriving DecidableEq

def otgStep (a : OtgAct) (s : OtgState) : OtgState :=
  match a with
  | .vbus set => { s with reg := vbusOverrideReg set s.reg }
  | .id set => { s with reg := idOverrideReg set s.reg }
  | .handle => otgVbusHandle s

def otgRun (acts : List OtgAct) (s : OtgState) : OtgState :=
  acts.foldl (fun s a => otgStep a s) s

/- ── UPHY PLL calibration sequences (§4.1) ── -/

/-- Outcome oracle for the five bounded polls of one PLL calibration run
(calibration-done set, calibration-done clear, lock-detect,
resistance-calibration done, resistance-calibration clear): `true` means
the status bit reached the desired value within the 100 ms bound. -/
structure UphyPolls where
  calDone : Bool
  calClear : Bool
  lockDet : Bool
  rcalDone : Bool
  rcalClear : Bool
  deriving DecidableEq

/-- A poll loop waiting for `bit` to become set in register `off`.  On
success the hardware has set the bit; on timeout the register is
unchanged and the timeout is recorded (the driver sets
`err = -ETIMEDOUT` and continues). -/
def pollSet (s : Hw) (off bit : Nat) (ok : Bool) : Hw :=
  { regs := wrRegs s.regs off (if ok then rd s off ||| bit else s.regs off),
    trace := s.trace ++ (if ok then [] else [Event.timeout]) }

/-- A poll loop waiting for `bit` to become clear in register `off`. -/
def pollClear (s : Hw) (off bit : Nat) (ok : Bool) : Hw :=
  { regs := wrRegs s.regs off (if ok then rd s off &&& not32 bit else s.regs off),
    trace := s.trace ++ (if ok then [] else [Event.timeout]) }

/-- `usb3_pll_g1_init_data`: `(cfg_addr, cfg_wdata)` pairs written to
UPHY_PLL_S0_CTL10 on Tegra210B01. -/
def usb3_pll_g1_init_data : List (Nat × Nat) :=
  [(0x2, 0x0000), (0x3, 0x7051), (0x25, 0x0130), (0x1E, 0x0017)]

/-- `tegra210_pex_uphy_enable`.  `b01` is the result of
`t210b01_compatible` (as a boolean), `errRst` the return value of
`reset_control_deassert(pcie->rst)` (only logged when negative), `polls`
the outcomes of the five bounded polls.  The C function unconditionally
ends with `return 0`. -/
def pexUphyEnable (b01 : Bool) (errRst : Int) (polls : UphyPolls) (s : Hw) :
    Hw × Int :=
  -- err = reset_control_deassert(pcie->rst); if (err < 0) dev_err(...);
  let _ := errRst
  -- step 2: calibration-control / DCO trim (or the B01 G1 init table)
  let s := if b01 then
      usb3_pll_g1_init_data.foldl
        (fun s d =>
          wr s XUSB_PADCTL_UPHY_PLL_S0_CTL10
            (CFG_ADDR d.1 ||| CFG_WDATA d.2 ||| CFG_RESET ||| CFG_WS)) s
    else
      let v := rd s XUSB_PADCTL_UPHY_PLL_P0_CTL2
      let v := v &&& not32 (UPHY_PLL_CTL2_CAL_CTRL_MASK <<< UPHY_PLL_CTL2_CAL_CTRL_SHIFT)
      let v := v ||| (UPHY_PLL_CTL2_CAL_CTRL_VAL <<< UPHY_PLL_CTL2_CAL_CTRL_SHIFT)
      let s := wr s XUSB_PADCTL_UPHY_PLL_P0_CTL2 v
      let v := rd s XUSB_PADCTL_UPHY_PLL_P0_CTL5
      let v := v &&& not32 (UPHY_PLL_CTL5_DCO_CTRL_MASK <<< UPHY_PLL_CTL5_DCO_CTRL_SHIFT)
      let v := v ||| (UPHY_PLL_CTL5_DCO_CTRL_VAL <<< UPHY_PLL_CTL5_DCO_CTRL_SHIFT)
      wr s XUSB_PADCTL_UPHY_PLL_P0_CTL5 v
  -- step 3: the three override bits
  let s := wr s XUSB_PADCTL_UPHY_PLL_P0_CTL1
      (rd s XUSB_PADCTL_UPHY_PLL_P0_CTL1 ||| UPHY_PLL_CTL1_PWR_OVRD)
  let s := wr s XUSB_PADCTL_UPHY_PLL_P0_CTL2
      (rd s XUSB_PADCTL_UPHY_PLL_P0_CTL2 ||| UPHY_PLL_CTL2_CAL_OVRD)
  let s := wr s XUSB_PADCTL_UPHY_PLL_P0_CTL8
      (rd s XUSB_PADCTL_UPHY_PLL_P0_CTL8 ||| UPHY_PLL_CTL8_RCAL_OVRD)
  -- step 4: clock reference selector / divider, IDDQ, SLEEP
  let v := rd s XUSB_PADCTL_UPHY_PLL_P0_CTL4
  let v := v &&& not32 ((UPHY_PLL_CTL4_TXCLKREF_SEL_MASK <<< UPHY_PLL_CTL4_TXCLKREF_SEL_SHIFT) |||
                        (UPHY_PLL_CTL4_REFCLK_SEL_MASK <<< UPHY_PLL_CTL4_REFCLK_SEL_SHIFT))
  let v := v ||| ((UPHY_PLL_CTL4_TXCLKREF_SEL_USB_VAL <<< UPHY_PLL_CTL4_TXCLKREF_SEL_SHIFT) |||
                  UPHY_PLL_CTL4_TXCLKREF_EN)
  let s := wr s XUSB_PADCTL_UPHY_PLL_P0_CTL4 v
  let v := rd s XUSB_PADCTL_UPHY_PLL_P0_CTL1
  let v := v &&& not32 ((UPHY_PLL_CTL1_FREQ_MDIV_MASK <<< UPHY_PLL_CTL1_FREQ_MDIV_SHIFT) |||
                        (UPHY_PLL_CTL1_FREQ_NDIV_MASK <<< UPHY_PLL_CTL1_FREQ_NDIV_SHIFT))
  let v := v ||| (UPHY_PLL_CTL1_FREQ_NDIV_USB_VAL <<< UPHY_PLL_CTL1_FREQ_NDIV_SHIFT)
  let s := wr s XUSB_PADCTL_UPHY_PLL_P0_CTL1 v
  let s := wr s XUSB_PADCTL_UPHY_PLL_P0_CTL1
      (rd s XUSB_PADCTL_UPHY_PLL_P0_CTL1 &&& not32 UPHY_PLL_CTL1_IDDQ)
  let s := wr s XUSB_PADCTL_UPHY_PLL_P0_CTL1
      (rd s XUSB_PADCTL_UPHY_PLL_P0_CTL1 &&&
        not32 (UPHY_PLL_CTL1_SLEEP_MASK <<< UPHY_PLL_CTL1_SLEEP_SHIFT))
  let s := sleepR s 10 20
  -- step 5: reference-clock buffer, calibration enable, poll CAL_DONE
  let s := wr s XUSB_PADCTL_UPHY_PLL_P0_CTL4
      (rd s XUSB_PADCTL_UPHY_PLL_P0_CTL4 ||| UPHY_PLL_CTL4_REFCLKBUF_EN)
  let s := wr s XUSB_PADCTL_UPHY_PLL_P0_CTL2
      (rd s XUSB_PADCTL_UPHY_PLL_P0_CTL2 ||| UPHY_PLL_CTL2_CAL_EN)
  let s := pollSet s XUSB_PADCTL_UPHY_PLL_P0_CTL2 UPHY_PLL_CTL2_CAL_DONE polls.calDone
  -- step 6: clear calibration enable, poll CAL_DONE clear
  let s := wr s XUSB_PADCTL_UPHY_PLL_P0_CTL2
      (rd s XUSB_PADCTL_UPHY_PLL_P0_CTL2 &&& not32 UPHY_PLL_CTL2_CAL_EN)
  let s := pollClear s XUSB_PADCTL_UPHY_PLL_P0_CTL2 UPHY_PLL_CTL2_CAL_DONE polls.calClear
  -- step 7: PLL enable, poll lock detect
  let s := wr s XUSB_PADCTL_UPHY_PLL_P0_CTL1
      (rd s XUSB_PADCTL_UPHY_PLL_P0_CTL1 ||| UPHY_PLL_CTL1_ENABLE)
  let s := pollSet s XUSB_PADCTL_UPHY_PLL_P0_CTL1 UPHY_PLL_CTL1_LOCKDET_STATUS polls.lockDet
  -- step 8: resistance calibration
  let s := wr s XUSB_PADCTL_UPHY_PLL_P0_CTL8
      (rd s XUSB_PADCTL_UPHY_PLL_P0_CTL8 |||
        (UPHY_PLL_CTL8_RCAL_EN ||| UPHY_PLL_CTL8_RCAL_CLK_EN))
  let s := pollSet s XUSB_PADCTL_UPHY_PLL_P0_CTL8 UPHY_PLL_CTL8_RCAL_DONE polls.rcalDone
  let s := wr s XUSB_PADCTL_UPHY_PLL_P0_CTL8
      (rd s XUSB_PADCTL_UPHY_PLL_P0_CTL8 &&& not32 UPHY_PLL_CTL8_RCAL_EN)
  let s := pollClear s XUSB_PADCTL_UPHY_PLL_P0_CTL8 UPHY_PLL_CTL8_RCAL_DONE polls.rcalClear
  let s := wr s XUSB_PADCTL_UPHY_PLL_P0_CTL8
      (rd s XUSB_PADCTL_UPHY_PLL_P0_CTL8 &&& not32 UPHY_PLL_CTL8_RCAL_CLK_EN)
  -- step 9: hardware-sequencer handoff and override-bit clearing
  let s := emit s Event.hwCtrlPex
  let s := wr s XUSB_PADCTL_UPHY_PLL_P0_CTL1
      (rd s XUSB_PADCTL_UPHY_PLL_P0_CTL1 &&& not32 UPHY_PLL_CTL1_PWR_OVRD)
  let s := wr s XUSB_PADCTL_UPHY_PLL_P0_CTL2
      (rd s XUSB_PADCTL_UPHY_PLL_P0_CTL2 &&& not32 UPHY_PLL_CTL2_CAL_OVRD)
  let s := wr s XUSB_PADCTL_UPHY_PLL_P0_CTL8
      (rd s XUSB_PADCTL_UPHY_PLL_P0_CTL8 &&& not32 UPHY_PLL_CTL8_RCAL_OVRD)
  let s := sleepR s 10 20
  let s := emit s Event.hwSeqStartPex
  (s, 0)

/-- `tegra210_sata_uphy_enable`.  `sataUsed` is `priv->sata_used_by_xusb`.
The TXCLKREF write to S0_CTL4 computed after the override bits is
commented out in the source (`XXX PLL0_XDIGCLK_EN`), so no write is
modelled there; only the later REFCLKBUF_EN write to S0_CTL4 is real.
The C function unconditionally ends with `return 0`. -/
def sataUphyEnable (sataUsed : Bool) (errRst : Int) (polls : UphyPolls) (s : Hw) :
    Hw × Int :=
  -- err = reset_control_deassert(sata->rst); if (err < 0) dev_err(...);
  let _ := errRst
  let v := rd s XUSB_PADCTL_UPHY_PLL_S0_CTL2
  let v := v &&& not32 (UPHY_PLL_CTL2_CAL_CTRL_MASK <<< UPHY_PLL_CTL2_CAL_CTRL_SHIFT)
  let v := v ||| (UPHY_PLL_CTL2_CAL_CTRL_VAL <<< UPHY_PLL_CTL2_CAL_CTRL_SHIFT)
  let s := wr s XUSB_PADCTL_UPHY_PLL_S0_CTL2 v
  let v := rd s XUSB_PADCTL_UPHY_PLL_S0_CTL5
  let v := v &&& not32 (UPHY_PLL_CTL5_DCO_CTRL_MASK <<< UPHY_PLL_CTL5_DCO_CTRL_SHIFT)
  let v := v ||| (UPHY_PLL_CTL5_DCO_CTRL_VAL <<< UPHY_PLL_CTL5_DCO_CTRL_SHIFT)
  let s := wr s XUSB_PADCTL_UPHY_PLL_S0_CTL5 v
  let s := wr s XUSB_PADCTL_UPHY_PLL_S0_CTL1
      (rd s XUSB_PADCTL_UPHY_PLL_S0_CTL1 ||| UPHY_PLL_CTL1_PWR_OVRD)
  let s := wr s XUSB_PADCTL_UPHY_PLL_S0_CTL2
      (rd s XUSB_PADCTL_UPHY_PLL_S0_CTL2 ||| UPHY_PLL_CTL2_CAL_OVRD)
  let s := wr s XUSB_PADCTL_UPHY_PLL_S0_CTL8
      (rd s XUSB_PADCTL_UPHY_PLL_S0_CTL8 ||| UPHY_PLL_CTL8_RCAL_OVRD)
  -- the TXCLKREF_SEL computation on S0_CTL4 is dead code in the source:
  -- its padctl_writel is commented out
  let v := rd s XUSB_PADCTL_UPHY_PLL_S0_CTL1
  let v := v &&& not32 ((UPHY_PLL_CTL1_FREQ_MDIV_MASK <<< UPHY_PLL_CTL1_FREQ_MDIV_SHIFT) |||
                        (UPHY_PLL_CTL1_FREQ_NDIV_MASK <<< UPHY_PLL_CTL1_FREQ_NDIV_SHIFT))
  let v := v ||| (if sataUsed then
                    UPHY_PLL_CTL1_FREQ_NDIV_USB_VAL <<< UPHY_PLL_CTL1_FREQ_NDIV_SHIFT
                  else
                    UPHY_PLL_CTL1_FREQ_NDIV_SATA_VAL <<< UPHY_PLL_CTL1_FREQ_NDIV_SHIFT)
  let s := wr s XUSB_PADCTL_UPHY_PLL_S0_CTL1 v
  let s := wr s XUSB_PADCTL_UPHY_PLL_S0_CTL1
      (rd s XUSB_PADCTL_UPHY_PLL_S0_CTL1 &&& not32 UPHY_PLL_CTL1_IDDQ)
  let s := wr s XUSB_PADCTL_UPHY_PLL_S0_CTL1
      (rd s XUSB_PADCTL_UPHY_PLL_S0_CTL1 &&&
        not32 (UPHY_PLL_CTL1_SLEEP_MASK <<< UPHY_PLL_CTL1_SLEEP_SHIFT))
  let s := sleepR s 10 20
  let s := wr s XUSB_PADCTL_UPHY_PLL_S0_CTL4
      (rd s XUSB_PADCTL_UPHY_PLL_S0_CTL4 ||| UPHY_PLL_CTL4_REFCLKBUF_EN)
  let s := wr s XUSB_PADCTL_UPHY_PLL_S0_CTL2
      (rd s XUSB_PADCTL_UPHY_PLL_S0_CTL2 ||| UPHY_PLL_CTL2_CAL_EN)
  let s := pollSet s XUSB_PADCTL_UPHY_PLL_S0_CTL2 UPHY_PLL_CTL2_CAL_DONE polls.calDone
  let s := wr s XUSB_PADCTL_UPHY_PLL_S0_CTL2
      (rd s XUSB_PADCTL_UPHY_PLL_S0_CTL2 &&& not32 UPHY_PLL_CTL2_CAL_EN)
  let s := pollClear s XUSB_PADCTL_UPHY_PLL_S0_CTL2 UPHY_PLL_CTL2_CAL_DONE polls.calClear
  let s := wr s XUSB_PADCTL_UPHY_PLL_S0_CTL1
      (rd s XUSB_PADCTL_UPHY_PLL_S0_CTL1 ||| UPHY_PLL_CTL1_ENABLE)
  let s := pollSet s XUSB_PADCTL_UPHY_PLL_S0_CTL1 UPHY_PLL_CTL1_LOCKDET_STATUS polls.lockDet
  let s := wr s XUSB_PADCTL_UPHY_PLL_S0_CTL8
      (rd s XUSB_PADCTL_UPHY_PLL_S0_CTL8 |||
        (UPHY_PLL_CTL8_RCAL_EN ||| UPHY_PLL_CTL8_RCAL_CLK_EN))
  let s := pollSet s XUSB_PADCTL_UPHY_PLL_S0_CTL8 UPHY_PLL_CTL8_RCAL_DONE polls.rcalDone
  let s := wr s XUSB_PADCTL_UPHY_PLL_S0_CTL8
      (rd s XUSB_PADCTL_UPHY_PLL_S0_CTL8 &&& not32 UPHY_PLL_CTL8_RCAL_EN)
  let s := pollClear s XUSB_PADCTL_UPHY_PLL_S0_CTL8 UPHY_PLL_CTL8_RCAL_DONE polls.rcalClear
  let s := wr s XUSB_PADCTL_UPHY_PLL_S0_CTL8
      (rd s XUSB_PADCTL_UPHY_PLL_S0_CTL8 &&& not32 UPHY_PLL_CTL8_RCAL_CLK_EN)
  let s := emit s Event.hwCtrlSata
  let s := wr s XUSB_PADCTL_UPHY_PLL_S0_CTL1
      (rd s XUSB_PADCTL_UPHY_PLL_S0_CTL1 &&& not32 UPHY_PLL_CTL1_PWR_OVRD)
  let s := wr s XUSB_PADCTL_UPHY_PLL_S0_CTL2
      (rd s XUSB_PADCTL_UPHY_PLL_S0_CTL2 &&& not32 UPHY_PLL_CTL2_CAL_OVRD)
  let s := wr s XUSB_PADCTL_UPHY_PLL_S0_CTL8
      (rd s XUSB_PADCTL_UPHY_PLL_S0_CTL8 &&& not32 UPHY_PLL_CTL8_RCAL_OVRD)
  let s := sleepR s 10 20
  let s := emit s Event.hwSeqStartSata
  (s, 0)

/- ── Shared enable/disable with reference counting (§4.2) ── -/

/-- Probe-time facts and environment outcomes for one
`tegra210_xusb_padctl_enable` call: the SoC revision, whether the SATA
lane is borrowed for USB3, the `clk_prepare_enable` results for
`priv->plle` and `priv->uphy_mgmt_clk`, the reset-deassert results, and
the poll oracles for the two PLLs. -/
structure PadEnv where
  b01 : Bool
  sataUsed : Bool
  plleErr : Int
  uphyMgmtErr : Int
  pexRst : Int
  sataRst : Int
  pexPolls : UphyPolls
  sataPolls : UphyPolls

/-- The pad controller's mutable state: the `enable` reference count
(kept as an integer so that the §8 never-below-zero property is
statable) and the register block. -/
structure Pad where
  enable : Int
  regs : Nat → Nat

/-- `tegra210_xusb_padctl_enable`.  Returns the new state, the event
trace of this one call, and the C return value.  The count is
post-incremented before any other work, exactly as `padctl->enable++`;
on a `clk_prepare_enable` failure the function returns the error with
the count left incremented (and, in the C code, the mutex still held). -/
def padctlEnable (env : PadEnv) (p : Pad) : Pad × List Event × Int :=
  if p.enable > 0 then
    ({ p with enable := p.enable + 1 }, [], 0)
  else
    let p1 : Pad := { p with enable := p.enable + 1 }
    if env.plleErr < 0 then
      (p1, [], env.plleErr)
    else if env.b01 ∧ env.uphyMgmtErr < 0 then
      (p1, [], env.uphyMgmtErr)
    else
      let hw : Hw := { regs := p1.regs, trace := [] }
      let hw := (pexUphyEnable env.b01 env.pexRst env.pexPolls hw).1
      let hw := if env.b01 then hw
                else (sataUphyEnable env.sataUsed env.sataRst env.sataPolls hw).1
      let hw := emit hw Event.hwSeqStartPlle
      let hw := wr hw XUSB_PADCTL_ELPG_PROGRAM_1
          (rd hw XUSB_PADCTL_ELPG_PROGRAM_1 &&& not32 AUX_MUX_LP0_CLAMP_EN)
      let hw := sleepR hw 100 200
      let hw := wr hw XUSB_PADCTL_ELPG_PROGRAM_1
          (rd hw XUSB_PADCTL_ELPG_PROGRAM_1 &&& not32 AUX_MUX_LP0_CLAMP_EN_EARLY)
      let hw := sleepR hw 100 200
      let hw := wr hw XUSB_PADCTL_ELPG_PROGRAM_1
          (rd hw XUSB_PADCTL_ELPG_PROGRAM_1 &&& not32 AUX_MUX_LP0_VCORE_DOWN)
      ({ enable := p1.enable, regs := hw.regs }, hw.trace, 0)

/-- `tegra210_xusb_padctl_disable`.  A call with the count already zero
fires `WARN_ON` and does nothing else; otherwise the count is
decremented first and the clamps are re-applied only on the transition
to zero.  The C function always returns 0. -/
def padctlDisable (p : Pad) : Pad × List Event :=
  if p.enable = 0 then
    (p, [Event.warn])
  else
    let e : Int := p.enable - 1
    if e > 0 then
      ({ p with enable := e }, [])
    else
      let hw : Hw := { regs := p.regs, trace := [] }
      let hw := wr hw XUSB_PADCTL_ELPG_PROGRAM_1
          (rd hw XUSB_PADCTL_ELPG_PROGRAM_1 ||| AUX_MUX_LP0_VCORE_DOWN)
      let hw := sleepR hw 100 200
      let hw := wr hw XUSB_PADCTL_ELPG_PROGRAM_1
          (rd hw XUSB_PADCTL_ELPG_PROGRAM_1 ||| AUX_MUX_LP0_CLAMP_EN_EARLY)
      let hw := sleepR hw 100 200
      let hw := wr hw XUSB_PADCTL_ELPG_PROGRAM_1
          (rd hw XUSB_PADCTL_ELPG_PROGRAM_1 ||| AUX_MUX_LP0_CLAMP_EN)
      ({ enable := e, regs := hw.regs }, hw.trace)

/-- A call into the shared enable/disable pair. -/
inductive PadAct where
  | enable
  | disable
  deriving DecidableEq

def padStep (env : PadEnv) (a : PadAct) (p : Pad) : Pad :=
  match a with
  | .enable => (padctlEnable env p).1
  | .disable => (padctlDisable p).1

def padRun (env : PadEnv) (acts : List PadAct) (p : Pad) : Pad :=
  acts.foldl (fun p a => padStep env a p) p

/- ── Per-port SuperSpeed power sequencing (§4.4) ── -/

/-- `tegra210_usb3_port_enable` for USB3 port `index`: `internal` is
`usb3->internal` and `mapVal` is `usb3->port` (the lane value recorded
in the port-to-lane map register).  Returns 0 unconditionally. -/
def usb3PortEnable (index : Nat) (internal : Bool) (mapVal : Nat) (s : Hw) :
    Hw × Int :=
  let v := rd s XUSB_PADCTL_SS_PORT_MAP
  let v := if internal then v ||| SS_PORT_MAP_PORTX_INTERNAL index
           else v &&& not32 (SS_PORT_MAP_PORTX_INTERNAL index)
  let v := v &&& not32 (SS_PORT_MAP_PORTX_MAP_MASK index)
  let v := v ||| SS_PORT_MAP_PORTX_MAP index mapVal
  let s := wr s XUSB_PADCTL_SS_PORT_MAP v
  let v := rd s (XUSB_PADCTL_UPHY_USB3_PADX_ECTL1 index)
  let v := v &&& not32 (UPHY_USB3_PAD_ECTL1_TX_TERM_CTRL_MASK <<<
                        UPHY_USB3_PAD_ECTL1_TX_TERM_CTRL_SHIFT)
  let v := v ||| (UPHY_USB3_PAD_ECTL1_TX_TERM_CTRL_VAL <<<
                  UPHY_USB3_PAD_ECTL1_TX_TERM_CTRL_SHIFT)
  let s := wr s (XUSB_PADCTL_UPHY_USB3_PADX_ECTL1 index) v
  let v := rd s (XUSB_PADCTL_UPHY_USB3_PADX_ECTL2 index)
  let v := v &&& not32 (UPHY_USB3_PAD_ECTL2_RX_CTLE_MASK <<<
                        UPHY_USB3_PAD_ECTL2_RX_CTLE_SHIFT)
  let v := v ||| (UPHY_USB3_PAD_ECTL2_RX_CTLE_VAL <<<
                  UPHY_USB3_PAD_ECTL2_RX_CTLE_SHIFT)
  let s := wr s (XUSB_PADCTL_UPHY_USB3_PADX_ECTL2 index) v
  let s := wr s (XUSB_PADCTL_UPHY_USB3_PADX_ECTL3 index)
      UPHY_USB3_PAD_ECTL3_RX_DFE_VAL
  let v := rd s (XUSB_PADCTL_UPHY_USB3_PADX_ECTL4 index)
  let v := v &&& not32 (UPHY_USB3_PAD_ECTL4_RX_CDR_CTRL_MASK <<<
                        UPHY_USB3_PAD_ECTL4_RX_CDR_CTRL_SHIFT)
  let v := v ||| (UPHY_USB3_PAD_ECTL4_RX_CDR_CTRL_VAL <<<
                  UPHY_USB3_PAD_ECTL4_RX_CDR_CTRL_SHIFT)
  let s := wr s (XUSB_PADCTL_UPHY_USB3_PADX_ECTL4 index) v
  let s := wr s (XUSB_PADCTL_UPHY_USB3_PADX_ECTL6 index)
      UPHY_USB3_PAD_ECTL6_RX_EQ_CTRL_H_VAL
  let s := wr s XUSB_PADCTL_ELPG_PROGRAM_1
      (rd s XUSB_PADCTL_ELPG_PROGRAM_1 &&& not32 (SSPX_ELPG_VCORE_DOWN index))
  let s := sleepR s 100 200
  let s := wr s XUSB_PADCTL_ELPG_PROGRAM_1
      (rd s XUSB_PADCTL_ELPG_PROGRAM_1 &&& not32 (SSPX_ELPG_CLAMP_EN_EARLY index))
  let s := sleepR s 100 200
  let s := wr s XUSB_PADCTL_ELPG_PROGRAM_1
      (rd s XUSB_PADCTL_ELPG_PROGRAM_1 &&& not32 (SSPX_ELPG_CLAMP_EN index))
  (s, 0)

/-- `tegra210_usb3_port_disable` for USB3 port `index`. -/
def usb3PortDisable (index : Nat) (s : Hw) : Hw :=
  let s := wr s XUSB_PADCTL_ELPG_PROGRAM_1
      (rd s XUSB_PADCTL_ELPG_PROGRAM_1 ||| SSPX_ELPG_CLAMP_EN_EARLY index)
  let s := sleepR s 100 200
  let s := wr s XUSB_PADCTL_ELPG_PROGRAM_1
      (rd s XUSB_PADCTL_ELPG_PROGRAM_1 ||| SSPX_ELPG_CLAMP_EN index)
  let s := sleepR s 250 350
  let s := wr s XUSB_PADCTL_ELPG_PROGRAM_1
      (rd s XUSB_PADCTL_ELPG_PROGRAM_1 ||| SSPX_ELPG_VCORE_DOWN index)
  let v := rd s XUSB_PADCTL_SS_PORT_MAP
  let v := v &&& not32 (SS_PORT_MAP_PORTX_MAP_MASK index)
  let v := v ||| SS_PORT_MAP_PORTX_MAP index 0x7
  wr s XUSB_PADCTL_SS_PORT_MAP v

/- ── USB3 port-to-lane mapping (§4.3) ── -/

/-- Pad identity of a PCIe-capable or SATA-capable lane group; matches
the `"pcie"` / `"sata"` strings of the lane-map tables and of
`lane->pad->soc->name`. -/
inductive PadName where
  | pcie
  | sata
  deriving DecidableEq

/-- One row of a `tegra_xusb_lane_map` table:
`{ port, type, lane index }`. -/
structure LaneMapEntry where
  port : Nat
  type : PadName
  index : Nat
  deriving DecidableEq

/-- `tegra210_usb3_map` (baseline Tegra210); excludes the NULL sentinel
row that terminates the C array. -/
def tegra210_usb3_map : List LaneMapEntry :=
  [⟨0, .pcie, 6⟩, ⟨1, .pcie, 5⟩, ⟨2, .pcie, 0⟩,
   ⟨2, .pcie, 3⟩, ⟨3, .pcie, 4⟩, ⟨3, .sata, 0⟩]

/-- `tegra210b01_usb3_map` (revision B). -/
def tegra210b01_usb3_map : List LaneMapEntry :=
  [⟨0, .pcie, 5⟩, ⟨1, .pcie, 4⟩, ⟨2, .pcie, 1⟩]

/-- Modelled from the spec: the forward `resolve(port)` lookup performed
by `tegra_xusb_port_find_lane` (drivers/phy/tegra/xusb.c, which is not
part of src/): "Lookup is linear scan, first match wins; absence of a
match is a configuration error surfaced to the caller".  Returns the
`(pad kind, lane index)` of the first table row whose port field equals
the port's index. -/
def portFindLane (map : List LaneMapEntry) (portIndex : Nat) :
    Option (PadName × Nat) :=
  (map.find? fun e => e.port == portIndex).map fun e => (e.type, e.index)

/-- `tegra210_usb3_lane_find_port_index`: scan the same table by lane
identity (lane index plus pad name); first match wins.  The C function
returns `(unsigned)-1` when the scan runs off the table, modelled as
`none`. -/
def laneFindPortIndex (map : List LaneMapEntry) (padType : PadName)
    (laneIndex : Nat) : Option Nat :=
  (map.find? fun e => e.index == laneIndex && e.type == padType).map
    fun e => e.port

/- ── Trace observation helpers ── -/

/-- Shape of one trace event: a write to a given offset, a sleep with its
bounds, or anything else. -/
inductive EvKind where
  | wrAt (off : Nat)
  | slpR (lo hi : Nat)
  | oth
  deriving DecidableEq

def kindOf : Event → EvKind
  | .write o _ => .wrAt o
  | .sleepRange lo hi => .slpR lo hi
  | _ => .oth

/-- The `(offset, value)` pairs of the `padctl_writel` calls in a trace. -/
def writesOf (t : List Event) : List (Nat × Nat) :=
  t.filterMap fun e =>
    match e with
    | .write o v => some (o, v)
    | _ => none

/-- Offset of the `n`-th `padctl_writel` of a trace. -/
def writeOff (t : List Event) (n : Nat) : Option Nat :=
  ((writesOf t)[n]?).map Prod.fst

/-- Bit `pos` of the value written by the `n`-th `padctl_writel` of a
trace. -/
def writeBit (t : List Event) (n pos : Nat) : Option Bool :=
  ((writesOf t)[n]?).map fun w => w.2.testBit pos

/-- An initial register file with every register reading all-zeros. -/
def zeroRegs : Nat → Nat := fun _ => 0

/-- An initial register file with every register reading all-ones, so a
read-modify-write that clears a bit is observable (the bit drops to 0)
and one that leaves a bit alone is too (the bit stays 1). -/
def onesRegs : Nat → Nat := fun _ => 0xFFFFFFFF

def isPexSeqStart : Event → Bool
  | .hwSeqStartPex => true
  | _ => false

def isSataSeqStart : Event → Bool
  | .hwSeqStartSata => true
  | _ => false

/-- Write-offset sequence of `tegra210_pex_uphy_enable` on baseline
Tegra210 (the non-B01 path), in program order. -/
def pexSeqOffsets : List Nat :=
  [XUSB_PADCTL_UPHY_PLL_P0_CTL2, XUSB_PADCTL_UPHY_PLL_P0_CTL5,
   XUSB_PADCTL_UPHY_PLL_P0_CTL1, XUSB_PADCTL_UPHY_PLL_P0_CTL2,
   XUSB_PADCTL_UPHY_PLL_P0_CTL8, XUSB_PADCTL_UPHY_PLL_P0_CTL4,
   XUSB_PADCTL_UPHY_PLL_P0_CTL1, XUSB_PADCTL_UPHY_PLL_P0_CTL1,
   XUSB_PADCTL_UPHY_PLL_P0_CTL1, XUSB_PADCTL_UPHY_PLL_P0_CTL4,
   XUSB_PADCTL_UPHY_PLL_P0_CTL2, XUSB_PADCTL_UPHY_PLL_P0_CTL2,
   XUSB_PADCTL_UPHY_PLL_P0_CTL1, XUSB_PADCTL_UPHY_PLL_P0_CTL8,
   XUSB_PADCTL_UPHY_PLL_P0_CTL8, XUSB_PADCTL_UPHY_PLL_P0_CTL8,
   XUSB_PADCTL_UPHY_PLL_P0_CTL1, XUSB_PADCTL_UPHY_PLL_P0_CTL2,
   XUSB_PADCTL_UPHY_PLL_P0_CTL8]

/-- Write-offset sequence of `tegra210_pex_uphy_enable` on Tegra210B01
(the G1 init table replaces the CTL2/CTL5 trim writes). -/
def pexSeqOffsetsB01 : List Nat :=
  [XUSB_PADCTL_UPHY_PLL_S0_CTL10, XUSB_PADCTL_UPHY_PLL_S0_CTL10,
   XUSB_PADCTL_UPHY_PLL_S0_CTL10, XUSB_PADCTL_UPHY_PLL_S0_CTL10,
   XUSB_PADCTL_UPHY_PLL_P0_CTL1, XUSB_PADCTL_UPHY_PLL_P0_CTL2,
   XUSB_PADCTL_UPHY_PLL_P0_CTL8, XUSB_PADCTL_UPHY_PLL_P0_CTL4,
   XUSB_PADCTL_UPHY_PLL_P0_CTL1, XUSB_PADCTL_UPHY_PLL_P0_CTL1,
   XUSB_PADCTL_UPHY_PLL_P0_CTL1, XUSB_PADCTL_UPHY_PLL_P0_CTL4,
   XUSB_PADCTL_UPHY_PLL_P0_CTL2, XUSB_PADCTL_UPHY_PLL_P0_CTL2,
   XUSB_PADCTL_UPHY_PLL_P0_CTL1, XUSB_PADCTL_UPHY_PLL_P0_CTL8,
   XUSB_PADCTL_UPHY_PLL_P0_CTL8, XUSB_PADCTL_UPHY_PLL_P0_CTL8,
   XUSB_PADCTL_UPHY_PLL_P0_CTL1, XUSB_PADCTL_UPHY_PLL_P0_CTL2,
   XUSB_PADCTL_UPHY_PLL_P0_CTL8]

/-- Write-offset sequence of `tegra210_sata_uphy_enable` (note there is
no early S0_CTL4 write: that `padctl_writel` is commented out in the
source). -/
def sataSeqOffsets : List Nat :=
  [XUSB_PADCTL_UPHY_PLL_S0_CTL2, XUSB_PADCTL_UPHY_PLL_S0_CTL5,
   XUSB_PADCTL_UPHY_PLL_S0_CTL1, XUSB_PADCTL_UPHY_PLL_S0_CTL2,
   XUSB_PADCTL_UPHY_PLL_S0_CTL8,
   XUSB_PADCTL_UPHY_PLL_S0_CTL1, XUSB_PADCTL_UPHY_PLL_S0_CTL1,
   XUSB_PADCTL_UPHY_PLL_S0_CTL1, XUSB_PADCTL_UPHY_PLL_S0_CTL4,
   XUSB_PADCTL_UPHY_PLL_S0_CTL2, XUSB_PADCTL_UPHY_PLL_S0_CTL2,
   XUSB_PADCTL_UPHY_PLL_S0_CTL1, XUSB_PADCTL_UPHY_PLL_S0_CTL8,
   XUSB_PADCTL_UPHY_PLL_S0_CTL8, XUSB_PADCTL_UPHY_PLL_S0_CTL8,
   XUSB_PADCTL_UPHY_PLL_S0_CTL1, XUSB_PADCTL_UPHY_PLL_S0_CTL2,
   XUSB_PADCTL_UPHY_PLL_S0_CTL8]

/- ── Generic lemmas about the trace and 32-bit operations ── -/

theorem writeOffsets_append (a b : List Event) :
    writeOffsets (a ++ b) = writeOffsets a ++ writeOffsets b := by
  simp [writeOffsets]

theorem writeOffsets_chunk (ok : Bool) :
    writeOffsets (if ok then [] else [Event.timeout]) = [] := by
  cases ok <;> rfl

theorem writeOffsets_nil : writeOffsets [] = [] := rfl

theorem writeOffsets_cons_write (o v : Nat) (t : List Event) :
    writeOffsets (Event.write o v :: t) = o :: writeOffsets t := rfl

theorem writeOffsets_cons_sleep (lo hi : Nat) (t : List Event) :
    writeOffsets (Event.sleepRange lo hi :: t) = writeOffsets t := rfl

theorem writeOffsets_cons_timeout (t : List Event) :
    writeOffsets (Event.timeout :: t) = writeOffsets t := rfl

theorem writeOffsets_cons_warn (t : List Event) :
    writeOffsets (Event.warn :: t) = writeOffsets t := rfl

theorem writeOffsets_cons_hwCtrlPex (t : List Event) :
    writeOffsets (Event.hwCtrlPex :: t) = writeOffsets t := rfl

theorem writeOffsets_cons_hwSeqStartPex (t : List Event) :
    writeOffsets (Event.hwSeqStartPex :: t) = writeOffsets t := rfl

theorem writeOffsets_cons_hwCtrlSata (t : List Event) :
    writeOffsets (Event.hwCtrlSata :: t) = writeOffsets t := rfl

theorem writeOffsets_cons_hwSeqStartSata (t : List Event) :
    writeOffsets (Event.hwSeqStartSata :: t) = writeOffsets t := rfl

theorem writeOffsets_cons_hwSeqStartPlle (t : List Event) :
    writeOffsets (Event.hwSeqStartPlle :: t) = writeOffsets t := rfl

theorem countPex_chunk (ok : Bool) :
    (if ok then ([] : List Event) else [Event.timeout]).countP isPexSeqStart = 0 := by
  cases ok <;> rfl

theorem countSata_chunk (ok : Bool) :
    (if ok then ([] : List Event) else [Event.timeout]).countP isSataSeqStart = 0 := by
  cases ok <;> rfl

theorem mem_chunk (e : Event) (ok : Bool)
    (he : e ≠ Event.timeout) : e ∉ (if ok then ([] : List Event) else [Event.timeout]) := by
  cases ok <;> simp [he]

theorem testBit_mask32 (i : Nat) (hi : i < 32) : Nat.testBit 0xFFFFFFFF i = true := by
  have h : (0xFFFFFFFF : Nat) = 2 ^ 32 - 1 := by norm_num
  rw [h, Nat.testBit_two_pow_sub_one]
  exact decide_eq_true hi

theorem testBit_ge32 (x i : Nat) (hx : x < 2 ^ 32) (hi : 32 ≤ i) :
    x.testBit i = false := by
  apply Nat.testBit_lt_two_pow
  exact lt_of_lt_of_le hx (Nat.pow_le_pow_right (by norm_num) hi)

theorem and_not32_testBit (x m : Nat) (i : Nat) (hi : i < 32) (hm : m.testBit i = true) :
    (x &&& not32 m).testBit i = false := by
  rw [Nat.testBit_and, not32, Nat.testBit_xor, testBit_mask32 i hi, hm]
  simp

theorem and_not32_testBit_other (x m : Nat) (i : Nat) (hi : i < 32)
    (hm : m.testBit i = false) : (x &&& not32 m).testBit i = x.testBit i := by
  rw [Nat.testBit_and, not32, Nat.testBit_xor, testBit_mask32 i hi, hm]
  simp

theorem and_mask32_testBit (x i : Nat) (hi : i < 32) :
    (x &&& 0xFFFFFFFF).testBit i = x.testBit i := by
  rw [Nat.testBit_and, testBit_mask32 i hi]
  simp

theorem or_testBit_self (x m i : Nat) (hm : m.testBit i = true) :
    (x ||| m).testBit i = true := by
  rw [Nat.testBit_or, hm, Bool.or_true]

theorem or_testBit_other (x m i : Nat) (hm : m.testBit i = false) :
    (x ||| m).testBit i = x.testBit i := by
  rw [Nat.testBit_or, hm, Bool.or_false]

theorem stepClr_hit (x m : Nat) (i : Nat) (hi : i < 32) (hm : m.testBit i = true) :
    ((x &&& 0xFFFFFFFF) &&& not32 m).testBit i = false :=
  and_not32_testBit _ m i hi hm

theorem stepClr_miss (x m : Nat) (i : Nat) (hi : i < 32) (hm : m.testBit i = false) :
    ((x &&& 0xFFFFFFFF) &&& not32 m).testBit i = x.testBit i := by
  rw [and_not32_testBit_other _ m i hi hm, and_mask32_testBit x i hi]

theorem stepSet_hit (x m : Nat) (i : Nat) (hm : m.testBit i = true) :
    ((x &&& 0xFFFFFFFF) ||| m).testBit i = true :=
  or_testBit_self _ m i hm

theorem stepSet_miss (x m : Nat) (i : Nat) (hi : i < 32) (hm : m.testBit i = false) :
    ((x &&& 0xFFFFFFFF) ||| m).testBit i = x.testBit i := by
  rw [or_testBit_other _ m i hm, and_mask32_testBit x i hi]

theorem lor_land_distrib (a b c : Nat) : (a ||| b) &&& c = (a &&& c) ||| (b &&& c) := by
  apply Nat.eq_of_testBit_eq
  intro i
  rw [Nat.testBit_and, Nat.testBit_or, Nat.testBit_or, Nat.testBit_and, Nat.testBit_and]
  cases a.testBit i <;> cases b.testBit i <;> cases c.testBit i <;> rfl

theorem and_lor_self (x m : Nat) : (x &&& m) ||| m = m := by
  apply Nat.eq_of_testBit_eq
  intro i
  rw [Nat.testBit_or, Nat.testBit_and]
  cases x.testBit i <;> cases m.testBit i <;> rfl

theorem field_set_get (v val mask s : Nat) (hval : val < 8)
    (h0 : mask.testBit s = false) (h1 : mask.testBit (s + 1) = false)
    (h2 : mask.testBit (s + 2) = false) :
    (((v &&& mask) ||| (val <<< s)) >>> s) &&& 7 = val := by
  apply Nat.eq_of_testBit_eq
  intro i
  rcases Nat.lt_or_ge i 3 with hi | hi
  · interval_cases i <;>
      simp [Nat.testBit_and, Nat.testBit_or, Nat.testBit_shiftRight,
            Nat.testBit_shiftLeft, Nat.add_sub_cancel_left, h0, h1, h2] <;>
      (intros; decide)
  · have h7 : Nat.testBit 7 i = false := by
      apply Nat.testBit_lt_two_pow
      calc (7 : Nat) < 8 := by norm_num
        _ = 2 ^ 3 := by norm_num
        _ ≤ 2 ^ i := Nat.pow_le_pow_right (by norm_num) hi
    have hv : val.testBit i = false := by
      apply Nat.testBit_lt_two_pow
      calc val < 8 := hval
        _ = 2 ^ 3 := by norm_num
        _ ≤ 2 ^ i := Nat.pow_le_pow_right (by norm_num) hi
    simp [Nat.testBit_and, h7, hv]

theorem field_set_get0 (v val mask : Nat) (hval : val < 8)
    (h0 : mask.testBit 0 = false) (h1 : mask.testBit 1 = false)
    (h2 : mask.testBit 2 = false) :
    ((v &&& mask) ||| val) &&& 7 = val := by
  have h := field_set_get v val mask 0 hval h0 h1 h2
  simpa using h

theorem portFindLane_base_oob (p : Nat) (hp : 4 ≤ p) :
    portFindLane tegra210_usb3_map p = none := by
  simp [portFindLane, tegra210_usb3_map, List.find?_eq_none]
  omega

theorem portFindLane_b01_oob (p : Nat) (hp : 3 ≤ p) :
    portFindLane tegra210b01_usb3_map p = none := by
  simp [portFindLane, tegra210b01_usb3_map, List.find?_eq_none]
  omega

/- ── Claim theorems ── -/

/-- C9: in every sequence of `vbus_override` / `id_override` calls and
runs of the deferred OTG handler, the bus-power regulator is never
switched on while the ID-override field of USB2_VBUS_ID reads FLOATING,
and the only step that switches it on is a handler run at a state whose
ID-override field reads GROUNDED.  Stated for every state and every
step, which covers every position of every action sequence. -/
theorem otg_regulator_on_only_when_id_grounded :
    (∀ (s : OtgState) (a : OtgAct),
        (otgStep a s).regulatorOn = true → s.regulatorOn = false →
          a = OtgAct.handle ∧
            s.reg &&& ID_OVERRIDE 0xf = ID_OVERRIDE_GROUNDED ∧
            s.reg &&& ID_OVERRIDE 0xf ≠ ID_OVERRIDE_FLOATING) ∧
    (∀ (s : OtgState) (a : OtgAct),
        s.reg &&& ID_OVERRIDE 0xf = ID_OVERRIDE_FLOATING →
          (otgStep a s).regulatorOn = true → s.regulatorOn = true) := by
  constructor
  · intro s a hon hoff
    cases a with
    | vbus set =>
      simp only [otgStep] at hon
      rw [hon] at hoff
      exact absurd hoff (by simp)
    | id set =>
      simp only [otgStep] at hon
      rw [hon] at hoff
      exact absurd hoff (by simp)
    | handle =>
      refine ⟨rfl, ?_⟩
      by_cases hg : s.reg &&& ID_OVERRIDE 0xf = ID_OVERRIDE_GROUNDED
      · exact ⟨hg, by rw [hg]; decide⟩
      · exfalso
        simp only [otgStep, otgVbusHandle, if_neg hg] at hon
        by_cases hf : s.reg &&& ID_OVERRIDE 0xf = ID_OVERRIDE_FLOATING
        · rw [if_pos hf] at hon
          by_cases hv : s.otgVbusOn
          · simp [hv] at hon
          · rw [if_neg (by simpa using hv)] at hon
            rw [hon] at hoff
            exact absurd hoff (by simp)
        · rw [if_neg hf] at hon
          rw [hon] at hoff
          exact absurd hoff (by simp)
  · intro s a hf hon
    cases a with
    | vbus set => simpa [otgStep] using hon
    | id set => simpa [otgStep] using hon
    | handle =>
      simp only [otgStep, otgVbusHandle] at hon
      have hg : ¬(s.reg &&& ID_OVERRIDE 0xf = ID_OVERRIDE_GROUNDED) := by
        rw [hf]; decide
      rw [if_neg hg, if_pos hf] at hon
      by_cases hv : s.otgVbusOn
      · simp [hv] at hon
      · rw [if_neg (by simpa using hv)] at hon
        exact hon

/-- Witness for C9: a handler run on a GROUNDED, regulator-off state
does switch the regulator on, so the theorem's hypotheses are
satisfiable; the theorem instantiated there yields the GROUNDED (and
hence not-FLOATING) verdict. -/
theorem otg_regulator_on_only_when_id_grounded_witness :
    OtgAct.handle = OtgAct.handle ∧
      (OtgState.mk ID_OVERRIDE_GROUNDED false false).reg &&& ID_OVERRIDE 0xf =
        ID_OVERRIDE_GROUNDED ∧
      (OtgState.mk ID_OVERRIDE_GROUNDED false false).reg &&& ID_OVERRIDE 0xf ≠
        ID_OVERRIDE_FLOATING :=
  otg_regulator_on_only_when_id_grounded.1
    (OtgState.mk ID_OVERRIDE_GROUNDED false false) OtgAct.handle
    (by decide) (by decide)

/-- C10: `vbus_override(set=true)` does not only set the VBUS-on bit:
the same register update forces the ID-override field to FLOATING;
`vbus_override(set=false)` clears only bit 14 (VBUS-on) and leaves every
other bit of the 32-bit register, in particular the ID-override field,
unchanged. -/
theorem vbus_override_overwrites_id_field :
    (∀ reg : Nat,
        vbusOverrideReg true reg &&& ID_OVERRIDE 0xf = ID_OVERRIDE_FLOATING) ∧
    (∀ reg : Nat,
        vbusOverrideReg true reg &&& VBUS_OVERRIDE_VBUS_ON = VBUS_OVERRIDE_VBUS_ON) ∧
    (∀ reg : Nat, reg < 2 ^ 32 → ∀ i : Nat, i ≠ 14 →
        (vbusOverrideReg false reg).testBit i = reg.testBit i) ∧
    (∀ reg : Nat, (vbusOverrideReg false reg).testBit 14 = false) := by
  refine ⟨?_, ?_, ?_, ?_⟩
  · intro reg
    show (((reg ||| VBUS_OVERRIDE_VBUS_ON) &&& not32 (ID_OVERRIDE 0xf)) |||
        ID_OVERRIDE_FLOATING) &&& ID_OVERRIDE 0xf = ID_OVERRIDE_FLOATING
    rw [lor_land_distrib, Nat.land_assoc]
    have h1 : not32 (ID_OVERRIDE 0xf) &&& ID_OVERRIDE 0xf = 0 := by decide
    have h2 : ID_OVERRIDE_FLOATING &&& ID_OVERRIDE 0xf = ID_OVERRIDE_FLOATING := by
      decide
    rw [h1, h2]
    simp
  · intro reg
    show (((reg ||| VBUS_OVERRIDE_VBUS_ON) &&& not32 (ID_OVERRIDE 0xf)) |||
        ID_OVERRIDE_FLOATING) &&& VBUS_OVERRIDE_VBUS_ON = VBUS_OVERRIDE_VBUS_ON
    rw [lor_land_distrib, Nat.land_assoc]
    have h1 : not32 (ID_OVERRIDE 0xf) &&& VBUS_OVERRIDE_VBUS_ON =
        VBUS_OVERRIDE_VBUS_ON := by decide
    have h2 : ID_OVERRIDE_FLOATING &&& VBUS_OVERRIDE_VBUS_ON = 0 := by decide
    rw [h1, h2, lor_land_distrib]
    have h3 : VBUS_OVERRIDE_VBUS_ON &&& VBUS_OVERRIDE_VBUS_ON =
        VBUS_OVERRIDE_VBUS_ON := by decide
    rw [h3, and_lor_self]
    simp
  · intro reg hreg i hi
    show (reg &&& not32 VBUS_OVERRIDE_VBUS_ON).testBit i = reg.testBit i
    rcases Nat.lt_or_ge i 32 with h32 | h32
    · apply and_not32_testBit_other _ _ _ h32
      have hv : VBUS_OVERRIDE_VBUS_ON = 2 ^ 14 := by decide
      rw [hv, Nat.testBit_two_pow]
      exact decide_eq_false fun h => hi h.symm
    · rw [Nat.testBit_and, testBit_ge32 reg i hreg h32, Bool.false_and]
  · intro reg
    exact and_not32_testBit _ _ _ (by norm_num) (by decide)

/-- Witness for C10's frame part at a concrete register value and bit. -/
theorem vbus_override_overwrites_id_field_witness :
    (vbusOverrideReg false (ID_OVERRIDE_FLOATING ||| VBUS_OVERRIDE_VBUS_ON)).testBit 21 =
      (ID_OVERRIDE_FLOATING ||| VBUS_OVERRIDE_VBUS_ON).testBit 21 :=
  vbus_override_overwrites_id_field.2.2.1
    (ID_OVERRIDE_FLOATING ||| VBUS_OVERRIDE_VBUS_ON) (by decide) 21 (by decide)

/-- C3: in each SoC-revision table, a successful forward resolve
(`port -> (pad, lane)`) followed by the reverse lane-to-port lookup over
the same table returns the original port index, and the forward resolve
is injective on resolved ports (a bijection between resolved ports and
their lanes). -/
theorem usb3_map_forward_reverse_identity :
    (∀ p t idx, portFindLane tegra210_usb3_map p = some (t, idx) →
        laneFindPortIndex tegra210_usb3_map t idx = some p) ∧
    (∀ p t idx, portFindLane tegra210b01_usb3_map p = some (t, idx) →
        laneFindPortIndex tegra210b01_usb3_map t idx = some p) ∧
    (∀ p q t idx, portFindLane tegra210_usb3_map p = some (t, idx) →
        portFindLane tegra210_usb3_map q = some (t, idx) → p = q) ∧
    (∀ p q t idx, portFindLane tegra210b01_usb3_map p = some (t, idx) →
        portFindLane tegra210b01_usb3_map q = some (t, idx) → p = q) := by
  have hbase : ∀ p t idx, portFindLane tegra210_usb3_map p = some (t, idx) →
      laneFindPortIndex tegra210_usb3_map t idx = some p := by
    intro p t idx h
    by_cases hp : p < 4
    · interval_cases p <;>
        (simp [portFindLane, tegra210_usb3_map] at h) <;>
        (obtain ⟨rfl, rfl⟩ := h) <;> rfl
    · rw [portFindLane_base_oob p (le_of_not_lt hp)] at h
      exact absurd h (by simp)
  have hb01 : ∀ p t idx, portFindLane tegra210b01_usb3_map p = some (t, idx) →
      laneFindPortIndex tegra210b01_usb3_map t idx = some p := by
    intro p t idx h
    by_cases hp : p < 3
    · interval_cases p <;>
        (simp [portFindLane, tegra210b01_usb3_map] at h) <;>
        (obtain ⟨rfl, rfl⟩ := h) <;> rfl
    · rw [portFindLane_b01_oob p (le_of_not_lt hp)] at h
      exact absurd h (by simp)
  refine ⟨hbase, hb01, ?_, ?_⟩
  · intro p q t idx hp hq
    have h1 := hbase p t idx hp
    have h2 := hbase q t idx hq
    rw [h1] at h2
    exact (Option.some.injEq _ _ ▸ h2).symm ▸ rfl
  · intro p q t idx hp hq
    have h1 := hb01 p t idx hp
    have h2 := hb01 q t idx hq
    rw [h1] at h2
    exact (Option.some.injEq _ _ ▸ h2).symm ▸ rfl

/-- Witness for C3: port USB3-0 resolves to PCIe lane 6 in the baseline
table and the reverse lookup returns port 0. -/
theorem usb3_map_forward_reverse_identity_witness :
    portFindLane tegra210_usb3_map 0 = some (PadName.pcie, 6) ∧
      laneFindPortIndex tegra210_usb3_map PadName.pcie 6 = some 0 :=
  ⟨rfl, usb3_map_forward_reverse_identity.1 0 PadName.pcie 6 rfl⟩

set_option maxHeartbeats 4000000 in
set_option maxRecDepth 8000 in
/-- C1: for every poll outcome (including every combination of 100 ms
timeouts) and every reset-deassert result, both PLL calibration
sequences perform the full fixed sequence of register writes, still
reach the hardware-sequencer handoff, leave the three override bits
(PWR_OVRD, CAL_OVRD, RCAL_OVRD) cleared in the final register state,
and return 0 (success). -/
theorem pll_cal_timeout_does_not_abort :
    ∀ (rstP rstS : Int) (pollsP pollsS : UphyPolls) (sataUsed : Bool)
      (regsP regsB regsS : Nat → Nat),
      (pexUphyEnable false rstP pollsP ⟨regsP, []⟩).2 = 0 ∧
      writeOffsets (pexUphyEnable false rstP pollsP ⟨regsP, []⟩).1.trace =
        pexSeqOffsets ∧
      Event.hwCtrlPex ∈ (pexUphyEnable false rstP pollsP ⟨regsP, []⟩).1.trace ∧
      Event.hwSeqStartPex ∈ (pexUphyEnable false rstP pollsP ⟨regsP, []⟩).1.trace ∧
      ((pexUphyEnable false rstP pollsP ⟨regsP, []⟩).1.regs
          XUSB_PADCTL_UPHY_PLL_P0_CTL1).testBit 4 = false ∧
      ((pexUphyEnable false rstP pollsP ⟨regsP, []⟩).1.regs
          XUSB_PADCTL_UPHY_PLL_P0_CTL2).testBit 2 = false ∧
      ((pexUphyEnable false rstP pollsP ⟨regsP, []⟩).1.regs
          XUSB_PADCTL_UPHY_PLL_P0_CTL8).testBit 15 = false ∧
      (pexUphyEnable true rstP pollsP ⟨regsB, []⟩).2 = 0 ∧
      writeOffsets (pexUphyEnable true rstP pollsP ⟨regsB, []⟩).1.trace =
        pexSeqOffsetsB01 ∧
      Event.hwSeqStartPex ∈ (pexUphyEnable true rstP pollsP ⟨regsB, []⟩).1.trace ∧
      (sataUphyEnable sataUsed rstS pollsS ⟨regsS, []⟩).2 = 0 ∧
      writeOffsets (sataUphyEnable sataUsed rstS pollsS ⟨regsS, []⟩).1.trace =
        sataSeqOffsets ∧
      Event.hwCtrlSata ∈ (sataUphyEnable sataUsed rstS pollsS ⟨regsS, []⟩).1.trace ∧
      Event.hwSeqStartSata ∈ (sataUphyEnable sataUsed rstS pollsS ⟨regsS, []⟩).1.trace ∧
      ((sataUphyEnable sataUsed rstS pollsS ⟨regsS, []⟩).1.regs
          XUSB_PADCTL_UPHY_PLL_S0_CTL1).testBit 4 = false ∧
      ((sataUphyEnable sataUsed rstS pollsS ⟨regsS, []⟩).1.regs
          XUSB_PADCTL_UPHY_PLL_S0_CTL2).testBit 2 = false ∧
      ((sataUphyEnable sataUsed rstS pollsS ⟨regsS, []⟩).1.regs
          XUSB_PADCTL_UPHY_PLL_S0_CTL8).testBit 15 = false := by
  intro rstP rstS pollsP pollsS sataUsed regsP regsB regsS
  refine ⟨rfl, ?_, ?_, ?_, ?_, ?_, ?_, rfl, ?_, ?_, rfl, ?_, ?_, ?_, ?_, ?_, ?_⟩
  · simp [pexUphyEnable, wr, sleepR, emit, pollSet, pollClear, pexSeqOffsets,
          writeOffsets_append, writeOffsets_chunk, writeOffsets_nil,
          writeOffsets_cons_write, writeOffsets_cons_sleep, writeOffsets_cons_timeout,
          writeOffsets_cons_hwCtrlPex, writeOffsets_cons_hwSeqStartPex]
  · simp [pexUphyEnable, wr, sleepR, emit, pollSet, pollClear, List.mem_append]
  · simp [pexUphyEnable, wr, sleepR, emit, pollSet, pollClear, List.mem_append]
  · simp [pexUphyEnable, wr, rd, wrRegs, sleepR, emit, pollSet, pollClear,
          XUSB_PADCTL_UPHY_PLL_P0_CTL1, XUSB_PADCTL_UPHY_PLL_P0_CTL2,
          XUSB_PADCTL_UPHY_PLL_P0_CTL4, XUSB_PADCTL_UPHY_PLL_P0_CTL5,
          XUSB_PADCTL_UPHY_PLL_P0_CTL8]
    intros; decide
  · simp [pexUphyEnable, wr, rd, wrRegs, sleepR, emit, pollSet, pollClear,
          XUSB_PADCTL_UPHY_PLL_P0_CTL1, XUSB_PADCTL_UPHY_PLL_P0_CTL2,
          XUSB_PADCTL_UPHY_PLL_P0_CTL4, XUSB_PADCTL_UPHY_PLL_P0_CTL5,
          XUSB_PADCTL_UPHY_PLL_P0_CTL8]
    intros; decide
  · simp [pexUphyEnable, wr, rd, wrRegs, sleepR, emit, pollSet, pollClear,
          XUSB_PADCTL_UPHY_PLL_P0_CTL1, XUSB_PADCTL_UPHY_PLL_P0_CTL2,
          XUSB_PADCTL_UPHY_PLL_P0_CTL4, XUSB_PADCTL_UPHY_PLL_P0_CTL5,
          XUSB_PADCTL_UPHY_PLL_P0_CTL8]
    intros; decide
  · simp [pexUphyEnable, usb3_pll_g1_init_data, wr, sleepR, emit, pollSet,
          pollClear, pexSeqOffsetsB01,
          writeOffsets_append, writeOffsets_chunk, writeOffsets_nil,
          writeOffsets_cons_write, writeOffsets_cons_sleep, writeOffsets_cons_timeout,
          writeOffsets_cons_hwCtrlPex, writeOffsets_cons_hwSeqStartPex]
  · simp [pexUphyEnable, usb3_pll_g1_init_data, wr, sleepR, emit, pollSet,
          pollClear, List.mem_append]
  · simp [sataUphyEnable, wr, sleepR, emit, pollSet, pollClear, sataSeqOffsets,
          writeOffsets_append, writeOffsets_chunk, writeOffsets_nil,
          writeOffsets_cons_write, writeOffsets_cons_sleep, writeOffsets_cons_timeout,
          writeOffsets_cons_hwCtrlSata, writeOffsets_cons_hwSeqStartSata]
  · simp [sataUphyEnable, wr, sleepR, emit, pollSet, pollClear, List.mem_append]
  · simp [sataUphyEnable, wr, sleepR, emit, pollSet, pollClear, List.mem_append]
  · simp [sataUphyEnable, wr, rd, wrRegs, sleepR, emit, pollSet, pollClear,
          XUSB_PADCTL_UPHY_PLL_S0_CTL1, XUSB_PADCTL_UPHY_PLL_S0_CTL2,
          XUSB_PADCTL_UPHY_PLL_S0_CTL4, XUSB_PADCTL_UPHY_PLL_S0_CTL5,
          XUSB_PADCTL_UPHY_PLL_S0_CTL8]
    intros; decide
  · simp [sataUphyEnable, wr, rd, wrRegs, sleepR, emit, pollSet, pollClear,
          XUSB_PADCTL_UPHY_PLL_S0_CTL1, XUSB_PADCTL_UPHY_PLL_S0_CTL2,
          XUSB_PADCTL_UPHY_PLL_S0_CTL4, XUSB_PADCTL_UPHY_PLL_S0_CTL5,
          XUSB_PADCTL_UPHY_PLL_S0_CTL8]
    intros; decide
  · simp [sataUphyEnable, wr, rd, wrRegs, sleepR, emit, pollSet, pollClear,
          XUSB_PADCTL_UPHY_PLL_S0_CTL1, XUSB_PADCTL_UPHY_PLL_S0_CTL2,
          XUSB_PADCTL_UPHY_PLL_S0_CTL4, XUSB_PADCTL_UPHY_PLL_S0_CTL5,
          XUSB_PADCTL_UPHY_PLL_S0_CTL8]
    intros; decide

set_option maxHeartbeats 4000000 in
set_option maxRecDepth 8000 in
/-- C4 counterexample: with `reset_control_deassert` failing (-22, the
kernel's -EINVAL), `tegra210_pex_uphy_enable` and
`tegra210_sata_uphy_enable` do NOT abort and do NOT propagate the error:
they still run to the hardware-sequencer handoff and return 0, so the
claim that a step-1 reset failure aborts with a propagated error code is
false on this code. -/
theorem reset_deassert_failure_not_propagated_cex :
    (pexUphyEnable false (-22) (UphyPolls.mk false false false false false)
        ⟨fun _ => 0, []⟩).2 = 0 ∧
    (pexUphyEnable false (-22) (UphyPolls.mk false false false false false)
        ⟨fun _ => 0, []⟩).2 ≠ -22 ∧
    Event.hwSeqStartPex ∈
      (pexUphyEnable false (-22) (UphyPolls.mk false false false false false)
        ⟨fun _ => 0, []⟩).1.trace ∧
    (sataUphyEnable false (-22) (UphyPolls.mk false false false false false)
        ⟨fun _ => 0, []⟩).2 = 0 ∧
    Event.hwSeqStartSata ∈
      (sataUphyEnable false (-22) (UphyPolls.mk false false false false false)
        ⟨fun _ => 0, []⟩).1.trace := by
  refine ⟨rfl, by decide, ?_, rfl, ?_⟩
  · simp [pexUphyEnable, wr, sleepR, emit, pollSet, pollClear, List.mem_append]
  · simp [sataUphyEnable, wr, sleepR, emit, pollSet, pollClear, List.mem_append]

set_option maxHeartbeats 4000000 in
set_option maxRecDepth 8000 in
/-- C4 amended: a failure of step 1 (reset deassert returning a negative
error) is only logged: the calibration sequence continues, performs its
full write sequence including the hardware-sequencer handoff, and the
function still returns 0 rather than the error code. -/
theorem reset_deassert_failure_sequence_continues :
    ∀ (errRst : Int), errRst < 0 →
      ∀ (polls : UphyPolls) (sataUsed : Bool) (regsP regsS : Nat → Nat),
        (pexUphyEnable false errRst polls ⟨regsP, []⟩).2 = 0 ∧
        writeOffsets (pexUphyEnable false errRst polls ⟨regsP, []⟩).1.trace =
          pexSeqOffsets ∧
        Event.hwSeqStartPex ∈ (pexUphyEnable false errRst polls ⟨regsP, []⟩).1.trace ∧
        (sataUphyEnable sataUsed errRst polls ⟨regsS, []⟩).2 = 0 ∧
        writeOffsets (sataUphyEnable sataUsed errRst polls ⟨regsS, []⟩).1.trace =
          sataSeqOffsets ∧
        Event.hwSeqStartSata ∈ (sataUphyEnable sataUsed errRst polls ⟨regsS, []⟩).1.trace := by
  intro errRst _ polls sataUsed regsP regsS
  refine ⟨rfl, ?_, ?_, rfl, ?_, ?_⟩
  · simp [pexUphyEnable, wr, sleepR, emit, pollSet, pollClear, pexSeqOffsets,
          writeOffsets_append, writeOffsets_chunk, writeOffsets_nil,
          writeOffsets_cons_write, writeOffsets_cons_sleep, writeOffsets_cons_timeout,
          writeOffsets_cons_hwCtrlPex, writeOffsets_cons_hwSeqStartPex]
  · simp [pexUphyEnable, wr, sleepR, emit, pollSet, pollClear, List.mem_append]
  · simp [sataUphyEnable, wr, sleepR, emit, pollSet, pollClear, sataSeqOffsets,
          writeOffsets_append, writeOffsets_chunk, writeOffsets_nil,
          writeOffsets_cons_write, writeOffsets_cons_sleep, writeOffsets_cons_timeout,
          writeOffsets_cons_hwCtrlSata, writeOffsets_cons_hwSeqStartSata]
  · simp [sataUphyEnable, wr, sleepR, emit, pollSet, pollClear, List.mem_append]

/-- Witness for the amended C4 at the concrete failing reset result -22. -/
theorem reset_deassert_failure_sequence_continues_witness :
    (pexUphyEnable false (-22) (UphyPolls.mk true true true true true)
        ⟨fun _ => 0, []⟩).2 = 0 ∧
    writeOffsets (pexUphyEnable false (-22) (UphyPolls.mk true true true true true)
        ⟨fun _ => 0, []⟩).1.trace = pexSeqOffsets ∧
    Event.hwSeqStartPex ∈ (pexUphyEnable false (-22)
        (UphyPolls.mk true true true true true) ⟨fun _ => 0, []⟩).1.trace ∧
    (sataUphyEnable false (-22) (UphyPolls.mk true true true true true)
        ⟨fun _ => 0, []⟩).2 = 0 ∧
    writeOffsets (sataUphyEnable false (-22) (UphyPolls.mk true true true true true)
        ⟨fun _ => 0, []⟩).1.trace = sataSeqOffsets ∧
    Event.hwSeqStartSata ∈ (sataUphyEnable false (-22)
        (UphyPolls.mk true true true true true) ⟨fun _ => 0, []⟩).1.trace :=
  reset_deassert_failure_sequence_continues (-22) (by norm_num)
    (UphyPolls.mk true true true true true) false (fun _ => 0) (fun _ => 0)

/-- In every branch of `tegra210_xusb_padctl_enable` the reference count
ends up incremented by exactly one (`padctl->enable++` runs before any
failure exit). -/
theorem padctl_enable_count (env : PadEnv) (p : Pad) :
    (padctlEnable env p).1.enable = p.enable + 1 := by
  simp only [padctlEnable]
  split_ifs <;> rfl

/-- `tegra210_xusb_padctl_disable` leaves the count unchanged when it is
zero (WARN_ON path) and decrements it by one otherwise. -/
theorem padctl_disable_count (p : Pad) :
    (padctlDisable p).1.enable = if p.enable = 0 then p.enable else p.enable - 1 := by
  simp only [padctlDisable]
  split_ifs <;> rfl

set_option maxHeartbeats 8000000 in
set_option maxRecDepth 16000 in
/-- C2: starting from `enable_refcount = 0`, the call sequence
enable; enable; disable; disable ends with the count back at 0, the
intermediate enable and disable calls perform no register writes at all,
the PLL calibration (both PLLs, ending in their hardware-sequencer
handoffs) runs exactly once — in the first enable — and the three
top-level AUX_MUX_LP0 clamp bits of ELPG_PROGRAM_1 are released exactly
once (three writes at the end of the first enable) and re-applied
exactly once (the three writes of the last disable). -/
theorem shared_enable_disable_nesting (sataUsed : Bool) (rstP rstS : Int)
    (pp sp : UphyPolls) (regs : Nat → Nat) :
    let env : PadEnv := ⟨false, sataUsed, 0, 0, rstP, rstS, pp, sp⟩
    let r1 := padctlEnable env ⟨0, regs⟩
    let r2 := padctlEnable env r1.1
    let r3 := padctlDisable r2.1
    let r4 := padctlDisable r3.1
    r1.1.enable = 1 ∧ r1.2.2 = 0 ∧
    r2.1.enable = 2 ∧ r2.2.1 = [] ∧ r2.2.2 = 0 ∧
    r3.1.enable = 1 ∧ r3.2 = [] ∧
    r4.1.enable = 0 ∧
    writeOffsets r1.2.1 = pexSeqOffsets ++ sataSeqOffsets ++
      [XUSB_PADCTL_ELPG_PROGRAM_1, XUSB_PADCTL_ELPG_PROGRAM_1,
       XUSB_PADCTL_ELPG_PROGRAM_1] ∧
    writeOffsets r4.2 =
      [XUSB_PADCTL_ELPG_PROGRAM_1, XUSB_PADCTL_ELPG_PROGRAM_1,
       XUSB_PADCTL_ELPG_PROGRAM_1] ∧
    (r1.2.1 ++ r2.2.1 ++ r3.2 ++ r4.2).countP isPexSeqStart = 1 ∧
    (r1.2.1 ++ r2.2.1 ++ r3.2 ++ r4.2).countP isSataSeqStart = 1 := by
  refine ⟨?_, rfl, ?_, ?_, ?_, ?_, ?_, ?_, ?_, ?_, ?_, ?_⟩
  · simp [padctlEnable]
  · simp [padctlEnable]
  · simp [padctlEnable]
  · simp [padctlEnable]
  · simp [padctlEnable, padctlDisable]
  · simp [padctlEnable, padctlDisable]
  · simp [padctlEnable, padctlDisable]
  · simp [padctlEnable, pexUphyEnable, sataUphyEnable, wr, rd, wrRegs, sleepR, emit,
          pollSet, pollClear, pexSeqOffsets, sataSeqOffsets,
          writeOffsets_append, writeOffsets_chunk, writeOffsets_nil,
          writeOffsets_cons_write, writeOffsets_cons_sleep, writeOffsets_cons_timeout,
          writeOffsets_cons_hwCtrlPex, writeOffsets_cons_hwSeqStartPex,
          writeOffsets_cons_hwCtrlSata, writeOffsets_cons_hwSeqStartSata,
          writeOffsets_cons_hwSeqStartPlle]
  · simp [padctlEnable, padctlDisable, pexUphyEnable, sataUphyEnable, wr, rd, wrRegs,
          sleepR, emit, pollSet, pollClear,
          writeOffsets_append, writeOffsets_chunk, writeOffsets_nil,
          writeOffsets_cons_write, writeOffsets_cons_sleep, writeOffsets_cons_timeout,
          writeOffsets_cons_hwCtrlPex, writeOffsets_cons_hwSeqStartPex,
          writeOffsets_cons_hwCtrlSata, writeOffsets_cons_hwSeqStartSata,
          writeOffsets_cons_hwSeqStartPlle]
  · simp [padctlEnable, padctlDisable, pexUphyEnable, sataUphyEnable, wr, rd, wrRegs,
          sleepR, emit, pollSet, pollClear, List.countP_cons, List.countP_append,
          countPex_chunk, isPexSeqStart]
  · simp [padctlEnable, padctlDisable, pexUphyEnable, sataUphyEnable, wr, rd, wrRegs,
          sleepR, emit, pollSet, pollClear, List.countP_cons, List.countP_append,
          countSata_chunk, isSataSeqStart]

/-- C5 (code bug): when the shared reference-clock enable fails on the
0-to-1 transition (`clk_prepare_enable(priv->plle)` returning -12, the
kernel's -ENOMEM), `tegra210_xusb_padctl_enable` does abort with the
propagated error and performs no register writes, but the reference
count was already incremented (`padctl->enable++` precedes the clock
call) and is NOT rolled back: it reads 1 after the failed call instead
of the 0 it started with (and in the C code the mutex is left held). -/
theorem enable_clk_fail_leaves_count_incremented :
    (padctlEnable
        (PadEnv.mk false false (-12) 0 0 0
          (UphyPolls.mk true true true true true)
          (UphyPolls.mk true true true true true))
        (Pad.mk 0 fun _ => 0)).1.enable = 1 ∧
    (padctlEnable
        (PadEnv.mk false false (-12) 0 0 0
          (UphyPolls.mk true true true true true)
          (UphyPolls.mk true true true true true))
        (Pad.mk 0 fun _ => 0)).2.1 = [] ∧
    (padctlEnable
        (PadEnv.mk false false (-12) 0 0 0
          (UphyPolls.mk true true true true true)
          (UphyPolls.mk true true true true true))
        (Pad.mk 0 fun _ => 0)).2.2 = -12 := by
  refine ⟨?_, ?_, ?_⟩ <;> simp [padctlEnable]

/-- C8: a `shared_disable` call with the count already at zero fires
WARN_ON, performs no decrement and no register writes, and from any
state with a non-negative count no sequence of enable/disable calls can
drive the count below zero. -/
theorem disable_at_zero_rejected :
    (∀ p : Pad, p.enable = 0 →
        padctlDisable p = (p, [Event.warn]) ∧
          writeOffsets (padctlDisable p).2 = []) ∧
    (∀ (env : PadEnv) (acts : List PadAct) (p : Pad), 0 ≤ p.enable →
        0 ≤ (padRun env acts p).enable) := by
  constructor
  · intro p hp
    constructor
    · simp [padctlDisable, hp]
    · simp [padctlDisable, hp, writeOffsets]
  · intro env acts
    induction acts with
    | nil => intro p hp; simpa [padRun] using hp
    | cons a rest ih =>
      intro p hp
      have hstep : 0 ≤ (padStep env a p).enable := by
        cases a with
        | enable =>
          simp only [padStep, padctl_enable_count]
          omega
        | disable =>
          simp only [padStep, padctl_disable_count]
          split_ifs with h
          · omega
          · omega
      have : padRun env (a :: rest) p = padRun env rest (padStep env a p) := by
        simp [padRun]
      rw [this]
      exact ih (padStep env a p) hstep

/-- Witness for C8: the WARN_ON path on a zero-count controller, and the
invariant on a concrete double-disable sequence from a zero-count
state. -/
theorem disable_at_zero_rejected_witness :
    (padctlDisable (Pad.mk 0 fun _ => 0) = (Pad.mk 0 fun _ => 0, [Event.warn]) ∧
      writeOffsets (padctlDisable (Pad.mk 0 fun _ => 0)).2 = []) ∧
    0 ≤ (padRun
        (PadEnv.mk false false 0 0 0 0
          (UphyPolls.mk true true true true true)
          (UphyPolls.mk true true true true true))
        [PadAct.disable, PadAct.disable, PadAct.enable, PadAct.disable]
        (Pad.mk 0 fun _ => 0)).enable :=
  ⟨disable_at_zero_rejected.1 (Pad.mk 0 fun _ => 0) rfl,
   disable_at_zero_rejected.2
     (PadEnv.mk false false 0 0 0 0
       (UphyPolls.mk true true true true true)
       (UphyPolls.mk true true true true true))
     [PadAct.disable, PadAct.disable, PadAct.enable, PadAct.disable]
     (Pad.mk 0 fun _ => 0) (by norm_num)⟩

/-- C6 counterexample: at port 0 (mapped lane 6, zero initial
registers) the FIRST `padctl_writel` of `tegra210_usb3_port_enable` is
the SS_PORT_MAP write and the LAST is an ELPG_PROGRAM_1 clamp write, so
the claim's ordering — clamps cleared first, electrical trims next, and
the port-to-lane map recorded "finally" — is false on this code. -/
theorem usb3_port_enable_map_write_first_cex :
    (writeOffsets (usb3PortEnable 0 false 6 ⟨zeroRegs, []⟩).1.trace).head? =
      some XUSB_PADCTL_SS_PORT_MAP ∧
    (writeOffsets (usb3PortEnable 0 false 6 ⟨zeroRegs, []⟩).1.trace).getLast? =
      some XUSB_PADCTL_ELPG_PROGRAM_1 ∧
    XUSB_PADCTL_ELPG_PROGRAM_1 ≠ XUSB_PADCTL_SS_PORT_MAP := by
  decide

set_option maxHeartbeats 8000000 in
set_option maxRecDepth 16000 in
/-- C6 amended: `tegra210_usb3_port_enable` FIRST records the port's
chosen lane in the port-to-lane map register, then programs the
electrical trim constants (termination control, CTLE, DFE, CDR,
high-frequency equalizer boost), and only then clears the port's private
clamp bits, in the order core-rail-down, early-clamp (a 100-200 us
settle delay after each of those two), clamp; on return the map register
field for the port reads back the mapped lane value (6 for port 0), the
clamp bits are clear, and the function returns success.  The first part
holds for every initial register state; the second pins the per-write
clamp-bit order on the all-ones register file, where a cleared bit reads
0 and an untouched bit reads 1. -/
theorem usb3_port_enable_amended :
    (∀ (i : Fin 4) (internal : Bool) (mapVal : Nat) (regs : Nat → Nat),
      (usb3PortEnable i.val internal mapVal ⟨regs, []⟩).2 = 0 ∧
      (usb3PortEnable i.val internal mapVal ⟨regs, []⟩).1.trace.map kindOf =
        [EvKind.wrAt XUSB_PADCTL_SS_PORT_MAP,
         EvKind.wrAt (XUSB_PADCTL_UPHY_USB3_PADX_ECTL1 i.val),
         EvKind.wrAt (XUSB_PADCTL_UPHY_USB3_PADX_ECTL2 i.val),
         EvKind.wrAt (XUSB_PADCTL_UPHY_USB3_PADX_ECTL3 i.val),
         EvKind.wrAt (XUSB_PADCTL_UPHY_USB3_PADX_ECTL4 i.val),
         EvKind.wrAt (XUSB_PADCTL_UPHY_USB3_PADX_ECTL6 i.val),
         EvKind.wrAt XUSB_PADCTL_ELPG_PROGRAM_1, EvKind.slpR 100 200,
         EvKind.wrAt XUSB_PADCTL_ELPG_PROGRAM_1, EvKind.slpR 100 200,
         EvKind.wrAt XUSB_PADCTL_ELPG_PROGRAM_1] ∧
      ((usb3PortEnable i.val internal mapVal ⟨regs, []⟩).1.regs
          XUSB_PADCTL_SS_PORT_MAP >>> (i.val * 5)) &&& 7 = mapVal &&& 7 ∧
      ((usb3PortEnable i.val internal mapVal ⟨regs, []⟩).1.regs
          XUSB_PADCTL_ELPG_PROGRAM_1).testBit (0 + i.val * 3) = false) ∧
    (∀ (i : Fin 4) (internal : Bool) (mapVal : Fin 8),
      writeOff (usb3PortEnable i.val internal mapVal.val ⟨onesRegs, []⟩).1.trace 6 =
        some XUSB_PADCTL_ELPG_PROGRAM_1 ∧
      writeOff (usb3PortEnable i.val internal mapVal.val ⟨onesRegs, []⟩).1.trace 7 =
        some XUSB_PADCTL_ELPG_PROGRAM_1 ∧
      writeOff (usb3PortEnable i.val internal mapVal.val ⟨onesRegs, []⟩).1.trace 8 =
        some XUSB_PADCTL_ELPG_PROGRAM_1 ∧
      writeBit (usb3PortEnable i.val internal mapVal.val ⟨onesRegs, []⟩).1.trace 6
        (2 + i.val * 3) = some false ∧
      writeBit (usb3PortEnable i.val internal mapVal.val ⟨onesRegs, []⟩).1.trace 6
        (1 + i.val * 3) = some true ∧
      writeBit (usb3PortEnable i.val internal mapVal.val ⟨onesRegs, []⟩).1.trace 6
        (0 + i.val * 3) = some true ∧
      writeBit (usb3PortEnable i.val internal mapVal.val ⟨onesRegs, []⟩).1.trace 7
        (1 + i.val * 3) = some false ∧
      writeBit (usb3PortEnable i.val internal mapVal.val ⟨onesRegs, []⟩).1.trace 7
        (2 + i.val * 3) = some false ∧
      writeBit (usb3PortEnable i.val internal mapVal.val ⟨onesRegs, []⟩).1.trace 7
        (0 + i.val * 3) = some true ∧
      writeBit (usb3PortEnable i.val internal mapVal.val ⟨onesRegs, []⟩).1.trace 8
        (0 + i.val * 3) = some false ∧
      writeBit (usb3PortEnable i.val internal mapVal.val ⟨onesRegs, []⟩).1.trace 8
        (1 + i.val * 3) = some false ∧
      writeBit (usb3PortEnable i.val internal mapVal.val ⟨onesRegs, []⟩).1.trace 8
        (2 + i.val * 3) = some false) := by
  constructor
  · intro i internal mapVal regs
    have hval : mapVal &&& 7 < 8 := by
      have h : mapVal &&& 7 ≤ 7 := Nat.and_le_right
      omega
    fin_cases i
    · refine ⟨rfl, ?_, ?_, ?_⟩
      · simp [usb3PortEnable, wr, rd, wrRegs, sleepR, kindOf]
      · simp only [usb3PortEnable, wr, rd, wrRegs, sleepR]
        norm_num [XUSB_PADCTL_SS_PORT_MAP, XUSB_PADCTL_ELPG_PROGRAM_1,
          XUSB_PADCTL_UPHY_USB3_PADX_ECTL1, XUSB_PADCTL_UPHY_USB3_PADX_ECTL2,
          XUSB_PADCTL_UPHY_USB3_PADX_ECTL3, XUSB_PADCTL_UPHY_USB3_PADX_ECTL4,
          XUSB_PADCTL_UPHY_USB3_PADX_ECTL6, SS_PORT_MAP_PORTX_MAP,
          SS_PORT_MAP_PORTX_MAP_MASK, SS_PORT_MAP_PORTX_INTERNAL]
        first
          | (apply field_set_get0 _ _ _ hval <;> decide)
          | (apply field_set_get _ _ _ _ hval <;> decide)
      · simp [usb3PortEnable, wr, rd, wrRegs, sleepR,
          XUSB_PADCTL_SS_PORT_MAP, XUSB_PADCTL_ELPG_PROGRAM_1,
          XUSB_PADCTL_UPHY_USB3_PADX_ECTL1, XUSB_PADCTL_UPHY_USB3_PADX_ECTL2,
          XUSB_PADCTL_UPHY_USB3_PADX_ECTL3, XUSB_PADCTL_UPHY_USB3_PADX_ECTL4,
          XUSB_PADCTL_UPHY_USB3_PADX_ECTL6]
        intros; decide
    · refine ⟨rfl, ?_, ?_, ?_⟩
      · simp [usb3PortEnable, wr, rd, wrRegs, sleepR, kindOf]
      · simp only [usb3PortEnable, wr, rd, wrRegs, sleepR]
        norm_num [XUSB_PADCTL_SS_PORT_MAP, XUSB_PADCTL_ELPG_PROGRAM_1,
          XUSB_PADCTL_UPHY_USB3_PADX_ECTL1, XUSB_PADCTL_UPHY_USB3_PADX_ECTL2,
          XUSB_PADCTL_UPHY_USB3_PADX_ECTL3, XUSB_PADCTL_UPHY_USB3_PADX_ECTL4,
          XUSB_PADCTL_UPHY_USB3_PADX_ECTL6, SS_PORT_MAP_PORTX_MAP,
          SS_PORT_MAP_PORTX_MAP_MASK, SS_PORT_MAP_PORTX_INTERNAL]
        first
          | (apply field_set_get0 _ _ _ hval <;> decide)
          | (apply field_set_get _ _ _ _ hval <;> decide)
      · simp [usb3PortEnable, wr, rd, wrRegs, sleepR,
          XUSB_PADCTL_SS_PORT_MAP, XUSB_PADCTL_ELPG_PROGRAM_1,
          XUSB_PADCTL_UPHY_USB3_PADX_ECTL1, XUSB_PADCTL_UPHY_USB3_PADX_ECTL2,
          XUSB_PADCTL_UPHY_USB3_PADX_ECTL3, XUSB_PADCTL_UPHY_USB3_PADX_ECTL4,
          XUSB_PADCTL_UPHY_USB3_PADX_ECTL6]
        intros; decide
    · refine ⟨rfl, ?_, ?_, ?_⟩
      · simp [usb3PortEnable, wr, rd, wrRegs, sleepR, kindOf]
      · simp only [usb3PortEnable, wr, rd, wrRegs, sleepR]
        norm_num [XUSB_PADCTL_SS_PORT_MAP, XUSB_PADCTL_ELPG_PROGRAM_1,
          XUSB_PADCTL_UPHY_USB3_PADX_ECTL1, XUSB_PADCTL_UPHY_USB3_PADX_ECTL2,
          XUSB_PADCTL_UPHY_USB3_PADX_ECTL3, XUSB_PADCTL_UPHY_USB3_PADX_ECTL4,
          XUSB_PADCTL_UPHY_USB3_PADX_ECTL6, SS_PORT_MAP_PORTX_MAP,
          SS_PORT_MAP_PORTX_MAP_MASK, SS_PORT_MAP_PORTX_INTERNAL]
        first
          | (apply field_set_get0 _ _ _ hval <;> decide)
          | (apply field_set_get _ _ _ _ hval <;> decide)
      · simp [usb3PortEnable, wr, rd, wrRegs, sleepR,
          XUSB_PADCTL_SS_PORT_MAP, XUSB_PADCTL_ELPG_PROGRAM_1,
          XUSB_PADCTL_UPHY_USB3_PADX_ECTL1, XUSB_PADCTL_UPHY_USB3_PADX_ECTL2,
          XUSB_PADCTL_UPHY_USB3_PADX_ECTL3, XUSB_PADCTL_UPHY_USB3_PADX_ECTL4,
          XUSB_PADCTL_UPHY_USB3_PADX_ECTL6]
        intros; decide
    · refine ⟨rfl, ?_, ?_, ?_⟩
      · simp [usb3PortEnable, wr, rd, wrRegs, sleepR, kindOf]
      · simp only [usb3PortEnable, wr, rd, wrRegs, sleepR]
        norm_num [XUSB_PADCTL_SS_PORT_MAP, XUSB_PADCTL_ELPG_PROGRAM_1,
          XUSB_PADCTL_UPHY_USB3_PADX_ECTL1, XUSB_PADCTL_UPHY_USB3_PADX_ECTL2,
          XUSB_PADCTL_UPHY_USB3_PADX_ECTL3, XUSB_PADCTL_UPHY_USB3_PADX_ECTL4,
          XUSB_PADCTL_UPHY_USB3_PADX_ECTL6, SS_PORT_MAP_PORTX_MAP,
          SS_PORT_MAP_PORTX_MAP_MASK, SS_PORT_MAP_PORTX_INTERNAL]
        first
          | (apply field_set_get0 _ _ _ hval <;> decide)
          | (apply field_set_get _ _ _ _ hval <;> decide)
      · simp [usb3PortEnable, wr, rd, wrRegs, sleepR,
          XUSB_PADCTL_SS_PORT_MAP, XUSB_PADCTL_ELPG_PROGRAM_1,
          XUSB_PADCTL_UPHY_USB3_PADX_ECTL1, XUSB_PADCTL_UPHY_USB3_PADX_ECTL2,
          XUSB_PADCTL_UPHY_USB3_PADX_ECTL3, XUSB_PADCTL_UPHY_USB3_PADX_ECTL4,
          XUSB_PADCTL_UPHY_USB3_PADX_ECTL6]
        intros; decide
  · decide

/-- C7 counterexample: at port 0 (zero initial registers) the first
clamp write of `tegra210_usb3_port_disable` asserts CLAMP_EN_EARLY
(bit 1), not CLAMP_EN (bit 0), so the claim's ordering — clamp first,
then early-clamp — is false on this code. -/
theorem usb3_port_disable_clamp_order_cex :
    writeOff (usb3PortDisable 0 ⟨zeroRegs, []⟩).trace 0 =
      some XUSB_PADCTL_ELPG_PROGRAM_1 ∧
    writeBit (usb3PortDisable 0 ⟨zeroRegs, []⟩).trace 0 0 = some false ∧
    writeBit (usb3PortDisable 0 ⟨zeroRegs, []⟩).trace 0 1 = some true := by
  decide

set_option maxHeartbeats 8000000 in
set_option maxRecDepth 16000 in
/-- C7 amended: `tegra210_usb3_port_disable` applies the port's private
clamp bits in the order early-clamp, 100-200 us wait, clamp,
250-350 us wait, core-rail-down — the reverse of its own power-on order
(which releases core-rail-down, early-clamp, clamp), not the claimed
clamp-first order — and as its final write stores the "unmapped" value
0x7 into the port's field of the port-to-lane map register.  The first
part holds for every initial register state; the second pins the
per-write clamp-bit order on the all-zeros register file, where a set
bit reads 1 and an untouched bit reads 0. -/
theorem usb3_port_disable_amended :
    (∀ (i : Fin 4) (regs : Nat → Nat),
      (usb3PortDisable i.val ⟨regs, []⟩).trace.map kindOf =
        [EvKind.wrAt XUSB_PADCTL_ELPG_PROGRAM_1, EvKind.slpR 100 200,
         EvKind.wrAt XUSB_PADCTL_ELPG_PROGRAM_1, EvKind.slpR 250 350,
         EvKind.wrAt XUSB_PADCTL_ELPG_PROGRAM_1,
         EvKind.wrAt XUSB_PADCTL_SS_PORT_MAP] ∧
      ((usb3PortDisable i.val ⟨regs, []⟩).regs XUSB_PADCTL_SS_PORT_MAP >>>
          (i.val * 5)) &&& 7 = 7) ∧
    (∀ i : Fin 4,
      writeOff (usb3PortDisable i.val ⟨zeroRegs, []⟩).trace 0 =
        some XUSB_PADCTL_ELPG_PROGRAM_1 ∧
      writeOff (usb3PortDisable i.val ⟨zeroRegs, []⟩).trace 1 =
        some XUSB_PADCTL_ELPG_PROGRAM_1 ∧
      writeOff (usb3PortDisable i.val ⟨zeroRegs, []⟩).trace 2 =
        some XUSB_PADCTL_ELPG_PROGRAM_1 ∧
      writeOff (usb3PortDisable i.val ⟨zeroRegs, []⟩).trace 3 =
        some XUSB_PADCTL_SS_PORT_MAP ∧
      writeBit (usb3PortDisable i.val ⟨zeroRegs, []⟩).trace 0 (1 + i.val * 3) =
        some true ∧
      writeBit (usb3PortDisable i.val ⟨zeroRegs, []⟩).trace 0 (0 + i.val * 3) =
        some false ∧
      writeBit (usb3PortDisable i.val ⟨zeroRegs, []⟩).trace 0 (2 + i.val * 3) =
        some false ∧
      writeBit (usb3PortDisable i.val ⟨zeroRegs, []⟩).trace 1 (0 + i.val * 3) =
        some true ∧
      writeBit (usb3PortDisable i.val ⟨zeroRegs, []⟩).trace 1 (1 + i.val * 3) =
        some true ∧
      writeBit (usb3PortDisable i.val ⟨zeroRegs, []⟩).trace 1 (2 + i.val * 3) =
        some false ∧
      writeBit (usb3PortDisable i.val ⟨zeroRegs, []⟩).trace 2 (0 + i.val * 3) =
        some true ∧
      writeBit (usb3PortDisable i.val ⟨zeroRegs, []⟩).trace 2 (1 + i.val * 3) =
        some true ∧
      writeBit (usb3PortDisable i.val ⟨zeroRegs, []⟩).trace 2 (2 + i.val * 3) =
        some true) := by
  constructor
  · intro i regs
    fin_cases i
    · refine ⟨?_, ?_⟩
      · simp [usb3PortDisable, wr, rd, wrRegs, sleepR, kindOf]
      · simp only [usb3PortDisable, wr, rd, wrRegs, sleepR]
        norm_num [XUSB_PADCTL_SS_PORT_MAP, XUSB_PADCTL_ELPG_PROGRAM_1,
          SS_PORT_MAP_PORTX_MAP, SS_PORT_MAP_PORTX_MAP_MASK]
        first
          | (apply field_set_get0 _ _ _ (by norm_num) <;> decide)
          | (apply field_set_get _ _ _ _ (by norm_num) <;> decide)
    · refine ⟨?_, ?_⟩
      · simp [usb3PortDisable, wr, rd, wrRegs, sleepR, kindOf]
      · simp only [usb3PortDisable, wr, rd, wrRegs, sleepR]
        norm_num [XUSB_PADCTL_SS_PORT_MAP, XUSB_PADCTL_ELPG_PROGRAM_1,
          SS_PORT_MAP_PORTX_MAP, SS_PORT_MAP_PORTX_MAP_MASK]
        first
          | (apply field_set_get0 _ _ _ (by norm_num) <;> decide)
          | (apply field_set_get _ _ _ _ (by norm_num) <;> decide)
    · refine ⟨?_, ?_⟩
      · simp [usb3PortDisable, wr, rd, wrRegs, sleepR, kindOf]
      · simp only [usb3PortDisable, wr, rd, wrRegs, sleepR]
        norm_num [XUSB_PADCTL_SS_PORT_MAP, XUSB_PADCTL_ELPG_PROGRAM_1,
          SS_PORT_MAP_PORTX_MAP, SS_PORT_MAP_PORTX_MAP_MASK]
        first
          | (apply field_set_get0 _ _ _ (by norm_num) <;> decide)
          | (apply field_set_get _ _ _ _ (by norm_num) <;> decide)
    · refine ⟨?_, ?_⟩
      · simp [usb3PortDisable, wr, rd, wrRegs, sleepR, kindOf]
      · simp only [usb3PortDisable, wr, rd, wrRegs, sleepR]
        norm_num [XUSB_PADCTL_SS_PORT_MAP, XUSB_PADCTL_ELPG_PROGRAM_1,
          SS_PORT_MAP_PORTX_MAP, SS_PORT_MAP_PORTX_MAP_MASK]
        first
          | (apply field_set_get0 _ _ _ (by norm_num) <;> decide)
          | (apply field_set_get _ _ _ _ (by norm_num) <;> decide)
  · decide

end Tegra210
